import Mathlib

/-!
Shallow embedding of the AstronomyAPI widgets client
(src/astronomy-api-widgets.ts) and proofs about its parameter
normalization/validation pipeline, its request lifecycle, and its
construction-time credential check.

Modelling conventions:
* JavaScript numbers stored in number-typed configuration fields are
  modelled by `JSNum`: a finite number (as a rational), `NaN`, or a
  runtime value that is not a number at all.
* A `console.warn` diagnostic is modelled by a `Warning` record carrying
  the widget name and the parameter name from the source message.
* The regular expressions of the source (REGEX_CSS_COLOR, REGEX_CSS_SIZE,
  REGEX_ISO_DATE, REGEX_CONSTELLATION_CODE) are anchored patterns over a
  known alphabet and are modelled by equivalent decidable character-list
  matchers.  The case-insensitive flag of REGEX_CSS_COLOR is modelled by
  lowercasing first (`jsToLower`), exactly as the flag behaves on the
  ASCII alphabet of that pattern.
* `new Date(s).getTime()` being NaN, tested by validateIsoDate after its
  strict regex, is modelled by ECMAScript component-range checking
  (`jsDateFieldsOk`) of the parsed date parts.
* `String.prototype.toUpperCase` is applied by the source only to strings
  that already matched `^[a-zA-Z]{3}$`; on that ASCII alphabet it is the
  per-character ASCII map `Char.toUpper`, lifted over the character list
  (`jsToUpper`).
-/

namespace AstroWidgets

/-- A JavaScript runtime value held in a number-typed field: a finite
number (modelled as a rational), NaN, or a non-number runtime value. -/
inductive JSNum where
  | num (q : ℚ)
  | nan
  | nonNumber
  deriving DecidableEq, Repr

/-- A diagnostic emitted through console.warn, identified by the widget
name and the parameter name appearing in the source message. -/
structure Warning where
  widget : String
  param : String
  deriving DecidableEq, Repr

/-- Character class [0-9]. -/
def isDigitChar (c : Char) : Bool := 48 ≤ c.toNat && c.toNat ≤ 57

/-- Character class [a-z]. -/
def isLowerChar (c : Char) : Bool := 97 ≤ c.toNat && c.toNat ≤ 122

/-- Character class [A-Z]. -/
def isUpperChar (c : Char) : Bool := 65 ≤ c.toNat && c.toNat ≤ 90

/-- Character class [a-zA-Z]. -/
def isAsciiLetterChar (c : Char) : Bool := isLowerChar c || isUpperChar c

/-- Character class [0-9a-f], applied after lowercasing. -/
def isHexLowerChar (c : Char) : Bool :=
  isDigitChar c || (97 ≤ c.toNat && c.toNat ≤ 102)

/-- The JavaScript regex class \s (whitespace characters). -/
def isJsSpaceChar (c : Char) : Bool :=
  c = ' ' || c = '\t' || c = '\n' || c = '\r' || c.toNat = 11 || c.toNat = 12 ||
  c.toNat = 0xa0 || c.toNat = 0x1680 || (0x2000 ≤ c.toNat && c.toNat ≤ 0x200a) ||
  c.toNat = 0x2028 || c.toNat = 0x2029 || c.toNat = 0x202f || c.toNat = 0x205f ||
  c.toNat = 0x3000 || c.toNat = 0xfeff

/-- String.prototype.toLowerCase restricted to the ASCII map, lifted over
the character list. -/
def jsToLower (s : String) : String := ⟨s.data.map Char.toLower⟩

/-- String.prototype.toUpperCase restricted to the ASCII map, lifted over
the character list. -/
def jsToUpper (s : String) : String := ⟨s.data.map Char.toUpper⟩

/-- Character class [\d\s,.] forming the body of the rgb/rgba alternative
of REGEX_CSS_COLOR. -/
def isRgbBodyChar (c : Char) : Bool :=
  isDigitChar c || isJsSpaceChar c || c = ',' || c = '.'

/-- Matches a nonempty [\d\s,.]+ body followed by a closing parenthesis,
consuming the whole remaining input. -/
def closeParenBody (l : List Char) : Bool :=
  match l.getLast? with
  | some c => c = ')' && !l.dropLast.isEmpty && l.dropLast.all isRgbBodyChar
  | none => false

/-- REGEX_CSS_COLOR:
a hash followed by exactly three or six hex digits, or rgb/rgba of a
nonempty [\d\s,.]+ body, or one or more letters; case-insensitive,
modelled by lowercasing first. -/
def cssColorMatch (s : String) : Bool :=
  match (jsToLower s).data with
  | [] => false
  | '#' :: rest => (rest.length == 3 || rest.length == 6) && rest.all isHexLowerChar
  | l =>
    if l.take 5 = ['r', 'g', 'b', 'a', '('] then closeParenBody (l.drop 5)
    else if l.take 4 = ['r', 'g', 'b', '('] then closeParenBody (l.drop 4)
    else l.all isLowerChar

/-- The allowed unit suffixes of REGEX_CSS_SIZE: px, em, %, vh, vw. -/
def sizeSuffixOk (l : List Char) : Bool :=
  l = ['p', 'x'] || l = ['e', 'm'] || l = ['%'] || l = ['v', 'h'] || l = ['v', 'w']

/-- REGEX_CSS_SIZE: one or more digits, an optional dot with one or more
digits, then a unit suffix. -/
def cssSizeMatch (s : String) : Bool :=
  let l := s.data
  let intPart := l.takeWhile isDigitChar
  let rest := l.dropWhile isDigitChar
  !intPart.isEmpty &&
    (match rest with
     | '.' :: r2 =>
       !(r2.takeWhile isDigitChar).isEmpty && sizeSuffixOk (r2.dropWhile isDigitChar)
     | r => sizeSuffixOk r)

/-- The components of a string matching REGEX_ISO_DATE. -/
structure IsoParts where
  year : Nat
  month : Nat
  day : Nat
  hour : Nat
  minute : Nat
  second : Nat
  frac : Option (List Char)
  tz : Option (Bool × Nat × Nat)
  deriving DecidableEq, Repr

/-- Consumes exactly the requested number of digits, accumulating their
decimal value. -/
def takeFixedDigitsAux : Nat → Nat → List Char → Option (Nat × List Char)
  | acc, 0, l => some (acc, l)
  | acc, n+1, c :: l =>
    if isDigitChar c then takeFixedDigitsAux (acc * 10 + (c.toNat - 48)) n l else none
  | _, _+1, [] => none

/-- Consumes exactly the requested number of digits from the front. -/
def takeFixedDigits (n : Nat) (l : List Char) : Option (Nat × List Char) :=
  takeFixedDigitsAux 0 n l

/-- Consumes one expected character. -/
def expectChar (c : Char) : List Char → Option (List Char)
  | x :: l => if x = c then some l else none
  | [] => none

/-- The optional fractional part (a dot and the following digits); the
caller rejects a dot followed by no digits. -/
def parseFrac : List Char → Option (List Char) × List Char
  | '.' :: l => (some (l.takeWhile isDigitChar), l.dropWhile isDigitChar)
  | l => (none, l)

/-- The timezone tail of REGEX_ISO_DATE: a literal Z, or a sign with a
two-digit hour, a colon and a two-digit minute, ending the input. -/
def parseTzTail : List Char → Option (Option (Bool × Nat × Nat))
  | ['Z'] => some none
  | c :: l =>
    if c = '+' || c = '-' then
      match takeFixedDigits 2 l with
      | some (th, l1) =>
        match expectChar ':' l1 with
        | some l2 =>
          match takeFixedDigits 2 l2 with
          | some (tm, []) => some (some (c = '+', th, tm))
          | _ => none
        | none => none
      | none => none
    else none
  | [] => none

/-- REGEX_ISO_DATE as a parser of its components: four-digit year, dashes,
two-digit month and day, a literal T, two-digit hour, minute and second
separated by colons, an optional fraction, and the timezone tail. -/
def parseIsoDate (s : String) : Option IsoParts := do
  let (y, l) ← takeFixedDigits 4 s.data
  let l ← expectChar '-' l
  let (mo, l) ← takeFixedDigits 2 l
  let l ← expectChar '-' l
  let (d, l) ← takeFixedDigits 2 l
  let l ← expectChar 'T' l
  let (h, l) ← takeFixedDigits 2 l
  let l ← expectChar ':' l
  let (mi, l) ← takeFixedDigits 2 l
  let l ← expectChar ':' l
  let (se, l) ← takeFixedDigits 2 l
  let (fr, l) := parseFrac l
  if fr = some [] then none
  else do
    let tz ← parseTzTail l
    some ⟨y, mo, d, h, mi, se, fr, tz⟩

/-- Gregorian leap-year rule used by ECMAScript date arithmetic. -/
def isLeapYear (y : Nat) : Bool := (y % 4 == 0 && y % 100 != 0) || y % 400 == 0

/-- Number of days of a month in ECMAScript date arithmetic. -/
def daysInMonth (y m : Nat) : Nat :=
  if m = 2 then (if isLeapYear y then 29 else 28)
  else if m = 4 || m = 6 || m = 9 || m = 11 then 30
  else 31

/-- Whether the optional fractional part is absent or denotes zero. -/
def fracIsZero : Option (List Char) → Bool
  | none => true
  | some ds => ds.all (fun c => c == '0')

/-- ECMAScript acceptance of the parsed components: new Date(s).getTime()
is a number (not NaN) exactly when every component is in range; hour 24
is accepted only at the exact end of a day. -/
def jsDateFieldsOk (p : IsoParts) : Bool :=
  1 ≤ p.month && p.month ≤ 12 && 1 ≤ p.day && p.day ≤ daysInMonth p.year p.month &&
  (p.hour ≤ 23 || (p.hour == 24 && p.minute == 0 && p.second == 0 && fracIsZero p.frac)) &&
  p.minute ≤ 59 && p.second ≤ 59 &&
  (match p.tz with
   | none => true
   | some (_, th, tm) => th ≤ 23 && tm ≤ 59)

/-- A string passes validateIsoDate: it matches REGEX_ISO_DATE and
new Date(s) yields a valid time value. -/
def isoDateOk (s : String) : Bool :=
  match parseIsoDate s with
  | some p => jsDateFieldsOk p
  | none => false

/-- REGEX_CONSTELLATION_CODE: exactly three ASCII letters. -/
def constellationCodeMatch (s : String) : Bool :=
  s.data.length == 3 && s.data.all isAsciiLetterChar

/-- validateStringEnum from the source: keep an allowed value, otherwise
warn and substitute the default. -/
def validateStringEnum (value : String) (allowedValues : List String)
    (defaultValue : String) (paramName widgetName : String) : String × List Warning :=
  if allowedValues.contains value then (value, [])
  else (defaultValue, [⟨widgetName, paramName⟩])

/-- validateCssColor from the source: keep a value matching
REGEX_CSS_COLOR, otherwise warn and substitute the default. -/
def validateCssColor (color defaultValue paramName widgetName : String) :
    String × List Warning :=
  if cssColorMatch color then (color, [])
  else (defaultValue, [⟨widgetName, paramName⟩])

/-- validateCssSize from the source: an absent value stays absent, a value
matching REGEX_CSS_SIZE is kept, any other value is dropped (undefined)
with a warning and no default is substituted. -/
def validateCssSize (size : Option String) (paramName widgetName : String) :
    Option String × List Warning :=
  match size with
  | none => (none, [])
  | some s => if cssSizeMatch s then (some s, []) else (none, [⟨widgetName, paramName⟩])

/-- validateNumberRange from the source: keep a real number within
[min, max] inclusive; a NaN, a non-number, or an out-of-range number is
replaced by the default with a warning. -/
def validateNumberRange (value : JSNum) (min max defaultValue : ℚ)
    (paramName widgetName : String) : ℚ × List Warning :=
  match value with
  | .num q => if min ≤ q ∧ q ≤ max then (q, []) else (defaultValue, [⟨widgetName, paramName⟩])
  | _ => (defaultValue, [⟨widgetName, paramName⟩])

/-- validateIsoDate from the source: keep a string matching REGEX_ISO_DATE
that parses to a valid date, otherwise warn and substitute the value of
the default-date provider (the current instant, passed in explicitly). -/
def validateIsoDate (dateStr : String) (defaultDate : String)
    (paramName widgetName : String) : String × List Warning :=
  if isoDateOk dateStr then (dateStr, [])
  else (defaultDate, [⟨widgetName, paramName⟩])

/-- validateConstellationCode from the source: a three-letter code is
standardized to uppercase, anything else is replaced by the default with
a warning. -/
def validateConstellationCode (code defaultValue paramName widgetName : String) :
    String × List Warning :=
  if constellationCodeMatch code then (jsToUpper code, [])
  else (defaultValue, [⟨widgetName, paramName⟩])

/-- The moonPhase style record of the source type MoonPhaseParameters. -/
structure MoonStyle where
  moonStyle : String
  backgroundStyle : String
  backgroundColor : String
  headingColor : String
  textColor : String
  width : Option String
  height : Option String
  deriving DecidableEq, Repr

/-- The observer record shared by both widgets. -/
structure Observer where
  latitude : JSNum
  longitude : JSNum
  date : String
  deriving DecidableEq, Repr

/-- The moonPhase view record. -/
structure MoonView where
  type : String
  deriving DecidableEq, Repr

/-- The source type MoonPhaseParameters (a complete configuration). -/
structure MoonPhaseParameters where
  element : String
  format : String
  style : MoonStyle
  observer : Observer
  view : MoonView
  deriving DecidableEq, Repr

/-- The starChart style record of the source type StarChartParameters. -/
structure StarStyle where
  type : String
  width : Option String
  height : Option String
  deriving DecidableEq, Repr

/-- The equatorial coordinates record of the starChart view. -/
structure Equatorial where
  rightAscension : JSNum
  declination : JSNum
  deriving DecidableEq, Repr

/-- The position record of the starChart view. -/
structure StarPosition where
  equatorial : Equatorial
  deriving DecidableEq, Repr

/-- The starChart view.parameters record.  The source declares only
position and zoom; the constellation key is attached dynamically (the
source casts to any), so it is modelled as an optional field that is
absent unless supplied by the user or set by validation. -/
structure StarViewParameters where
  position : StarPosition
  zoom : JSNum
  constellation : Option String
  deriving DecidableEq, Repr

/-- The starChart view record. -/
structure StarView where
  type : String
  parameters : StarViewParameters
  deriving DecidableEq, Repr

/-- The source type StarChartParameters (a complete configuration). -/
structure StarChartParameters where
  element : String
  style : StarStyle
  observer : Observer
  view : StarView
  deriving DecidableEq, Repr

/-- The numeric value of a number-typed default-template field (the
templates always hold real numbers). -/
def JSNum.getQ : JSNum → ℚ
  | .num q => q
  | .nan => 0
  | .nonNumber => 0

/-- DEFAULT_MOON_PHASE_PARAMS from the source.  Its observer.date is
new Date().toISOString() captured once at module load, passed here as
`loadDate`. -/
def DEFAULT_MOON_PHASE_PARAMS (loadDate : String) : MoonPhaseParameters where
  element := "#moon-phase"
  format := "png"
  style :=
    { moonStyle := "default"
      backgroundStyle := "stars"
      backgroundColor := "black"
      headingColor := "white"
      textColor := "white"
      width := none
      height := none }
  observer := { latitude := .num 0, longitude := .num 0, date := loadDate }
  view := { type := "portrait-simple" }

/-- DEFAULT_STAR_CHART_PARAMS from the source, with its module-load
observer.date passed as `loadDate`. -/
def DEFAULT_STAR_CHART_PARAMS (loadDate : String) : StarChartParameters where
  element := "#star-chart"
  style := { type := "default", width := none, height := none }
  observer := { latitude := .num 0, longitude := .num 0, date := loadDate }
  view :=
    { type := "area"
      parameters :=
        { position := { equatorial := { rightAscension := .num 12.83, declination := .num (-15.23) } }
          zoom := .num 3
          constellation := none } }

/-- A user-supplied partial moonPhase style: any subset of the leaves. -/
structure PartialMoonStyle where
  moonStyle : Option String := none
  backgroundStyle : Option String := none
  backgroundColor : Option String := none
  headingColor : Option String := none
  textColor : Option String := none
  width : Option String := none
  height : Option String := none
  deriving DecidableEq, Repr

/-- A user-supplied partial observer: any subset of the leaves. -/
structure PartialObserver where
  latitude : Option JSNum := none
  longitude : Option JSNum := none
  date : Option String := none
  deriving DecidableEq, Repr

/-- A user-supplied partial moonPhase view. -/
structure PartialMoonView where
  type : Option String := none
  deriving DecidableEq, Repr

/-- A user-supplied Partial of MoonPhaseParameters. -/
structure PartialMoonPhaseParameters where
  element : Option String := none
  format : Option String := none
  style : Option PartialMoonStyle := none
  observer : Option PartialObserver := none
  view : Option PartialMoonView := none
  deriving DecidableEq, Repr

/-- A user-supplied partial of the equatorial coordinates. -/
structure PartialEquatorial where
  rightAscension : Option JSNum := none
  declination : Option JSNum := none
  deriving DecidableEq, Repr

/-- A user-supplied partial of the starChart position. -/
structure PartialStarPosition where
  equatorial : Option PartialEquatorial := none
  deriving DecidableEq, Repr

/-- A user-supplied partial of the starChart view.parameters, including
the dynamically attached constellation key. -/
structure PartialStarViewParameters where
  position : Option PartialStarPosition := none
  zoom : Option JSNum := none
  constellation : Option String := none
  deriving DecidableEq, Repr

/-- A user-supplied partial of the starChart view. -/
structure PartialStarView where
  type : Option String := none
  parameters : Option PartialStarViewParameters := none
  deriving DecidableEq, Repr

/-- A user-supplied partial of the starChart style. -/
structure PartialStarStyle where
  type : Option String := none
  width : Option String := none
  height : Option String := none
  deriving DecidableEq, Repr

/-- A user-supplied Partial of StarChartParameters. -/
structure PartialStarChartParameters where
  element : Option String := none
  style : Option PartialStarStyle := none
  observer : Option PartialObserver := none
  view : Option PartialStarView := none
  deriving DecidableEq, Repr

/-- The merged observer.date: the source tests the user-supplied date for
JavaScript truthiness (for a string: nonempty), falling back to
new Date().toISOString() captured at call time (`now`). -/
def mergeDate (userDate : Option String) (now : String) : String :=
  match userDate with
  | some d => if d.isEmpty then now else d
  | none => now

/-- The initial deep merge of moonPhase (source lines 309-325): spread of
the defaults under the user input at the top level and inside observer,
style and view. -/
def mergeMoonPhase (userParams : PartialMoonPhaseParameters) (loadDate now : String) :
    MoonPhaseParameters :=
  let d := DEFAULT_MOON_PHASE_PARAMS loadDate
  let us := userParams.style.getD {}
  let uo := userParams.observer.getD {}
  let uv := userParams.view.getD {}
  { element := userParams.element.getD d.element
    format := userParams.format.getD d.format
    style :=
      { moonStyle := us.moonStyle.getD d.style.moonStyle
        backgroundStyle := us.backgroundStyle.getD d.style.backgroundStyle
        backgroundColor := us.backgroundColor.getD d.style.backgroundColor
        headingColor := us.headingColor.getD d.style.headingColor
        textColor := us.textColor.getD d.style.textColor
        width := us.width <|> d.style.width
        height := us.height <|> d.style.height }
    observer :=
      { latitude := uo.latitude.getD d.observer.latitude
        longitude := uo.longitude.getD d.observer.longitude
        date := mergeDate uo.date now }
    view := { type := uv.type.getD d.view.type } }

/-- The initial deep merge of starChart (source lines 374-402): spreads
down to view.parameters.position.equatorial. -/
def mergeStarChart (userParams : PartialStarChartParameters) (loadDate now : String) :
    StarChartParameters :=
  let d := DEFAULT_STAR_CHART_PARAMS loadDate
  let us := userParams.style.getD {}
  let uo := userParams.observer.getD {}
  let uv := userParams.view.getD {}
  let up := uv.parameters.getD {}
  let upos := up.position.getD {}
  let ueq := upos.equatorial.getD {}
  { element := userParams.element.getD d.element
    style :=
      { type := us.type.getD d.style.type
        width := us.width <|> d.style.width
        height := us.height <|> d.style.height }
    observer :=
      { latitude := uo.latitude.getD d.observer.latitude
        longitude := uo.longitude.getD d.observer.longitude
        date := mergeDate uo.date now }
    view :=
      { type := uv.type.getD d.view.type
        parameters :=
          { position :=
              { equatorial :=
                  { rightAscension :=
                      ueq.rightAscension.getD d.view.parameters.position.equatorial.rightAscension
                    declination :=
                      ueq.declination.getD d.view.parameters.position.equatorial.declination } }
            zoom := up.zoom.getD d.view.parameters.zoom
            constellation := up.constellation <|> d.view.parameters.constellation } } }

/-- The in-place validation pass of moonPhase (source lines 327-353),
rendered as a function from the merged configuration to the sanitized
configuration together with the emitted warnings in source order.  The
default-date provider of the source is the call-time instant `now`. -/
def validateMoonPhaseParams (params : MoonPhaseParameters) (now : String) :
    MoonPhaseParameters × List Warning :=
  let d := DEFAULT_MOON_PHASE_PARAMS now
  let wn := "moonPhase"
  let fmt := validateStringEnum params.format ["png", "svg"] d.format "format" wn
  let ms := validateStringEnum params.style.moonStyle ["default", "sketch", "realistic"]
    d.style.moonStyle "style.moonStyle" wn
  let bs := validateStringEnum params.style.backgroundStyle ["stars", "solid", "transparent"]
    d.style.backgroundStyle "style.backgroundStyle" wn
  let bc := validateCssColor params.style.backgroundColor d.style.backgroundColor
    "style.backgroundColor" wn
  let hc := validateCssColor params.style.headingColor d.style.headingColor
    "style.headingColor" wn
  let tc := validateCssColor params.style.textColor d.style.textColor "style.textColor" wn
  let wd := validateCssSize params.style.width "style.width" wn
  let ht := validateCssSize params.style.height "style.height" wn
  let lat := validateNumberRange params.observer.latitude (-90) 90
    d.observer.latitude.getQ "observer.latitude" wn
  let lng := validateNumberRange params.observer.longitude (-180) 180
    d.observer.longitude.getQ "observer.longitude" wn
  let dt := validateIsoDate params.observer.date now "observer.date" wn
  let vt := validateStringEnum params.view.type
    ["portrait-simple", "portrait-detailed", "landscape-simple", "landscape-detailed"]
    d.view.type "view.type" wn
  let el :=
    if params.element.isEmpty then (d.element, ([⟨wn, "element"⟩] : List Warning))
    else (params.element, [])
  ({ element := el.1
     format := fmt.1
     style :=
       { moonStyle := ms.1, backgroundStyle := bs.1, backgroundColor := bc.1
         headingColor := hc.1, textColor := tc.1, width := wd.1, height := ht.1 }
     observer := { latitude := .num lat.1, longitude := .num lng.1, date := dt.1 }
     view := { type := vt.1 } },
   fmt.2 ++ ms.2 ++ bs.2 ++ bc.2 ++ hc.2 ++ tc.2 ++ wd.2 ++ ht.2 ++ lat.2 ++ lng.2 ++
     dt.2 ++ vt.2 ++ el.2)

/-- The in-place validation pass of starChart (source lines 404-466).
After the view.type enum check, the area-specific range rules run only in
the area branch and the constellation-code rule only in the constellation
branch; the source's structure-exists safeguard of the area branch is
unreachable here because the typed merge always builds the full
position.equatorial structure. -/
def validateStarChartParams (params : StarChartParameters) (now : String) :
    StarChartParameters × List Warning :=
  let d := DEFAULT_STAR_CHART_PARAMS now
  let wn := "starChart"
  let st := validateStringEnum params.style.type
    ["default", "constellation", "red", "nightvision", "sketch", "white"]
    d.style.type "style.type" wn
  let wd := validateCssSize params.style.width "style.width" wn
  let ht := validateCssSize params.style.height "style.height" wn
  let lat := validateNumberRange params.observer.latitude (-90) 90
    d.observer.latitude.getQ "observer.latitude" wn
  let lng := validateNumberRange params.observer.longitude (-180) 180
    d.observer.longitude.getQ "observer.longitude" wn
  let dt := validateIsoDate params.observer.date now "observer.date" wn
  let vt := validateStringEnum params.view.type ["area", "constellation"]
    d.view.type "view.type" wn
  let pv :=
    if vt.1 = "area" then
      let ra := validateNumberRange params.view.parameters.position.equatorial.rightAscension
        0 24 d.view.parameters.position.equatorial.rightAscension.getQ
        "view.parameters.position.equatorial.rightAscension" wn
      let dec := validateNumberRange params.view.parameters.position.equatorial.declination
        (-90) 90 d.view.parameters.position.equatorial.declination.getQ
        "view.parameters.position.equatorial.declination" wn
      let zm := validateNumberRange params.view.parameters.zoom 1 10
        d.view.parameters.zoom.getQ "view.parameters.zoom" wn
      (({ position := { equatorial := { rightAscension := .num ra.1, declination := .num dec.1 } }
          zoom := .num zm.1
          constellation := params.view.parameters.constellation } : StarViewParameters),
       ra.2 ++ dec.2 ++ zm.2)
    else if vt.1 = "constellation" then
      let codeW :=
        match params.view.parameters.constellation with
        | some s => (s, ([] : List Warning))
        | none => ("ORI", [⟨wn, "view.parameters.constellation"⟩])
      let cc := validateConstellationCode codeW.1 "ORI" "view.parameters.constellation" wn
      (({ position := params.view.parameters.position
          zoom := params.view.parameters.zoom
          constellation := some cc.1 } : StarViewParameters),
       codeW.2 ++ cc.2)
    else (params.view.parameters, [])
  let el :=
    if params.element.isEmpty then (d.element, ([⟨wn, "element"⟩] : List Warning))
    else (params.element, [])
  ({ element := el.1
     style := { type := st.1, width := wd.1, height := ht.1 }
     observer := { latitude := .num lat.1, longitude := .num lng.1, date := dt.1 }
     view := { type := vt.1, parameters := pv.1 } },
   st.2 ++ wd.2 ++ ht.2 ++ lat.2 ++ lng.2 ++ dt.2 ++ vt.2 ++ pv.2 ++ el.2)

/-- moonPhase up to its network call: the normalizer (deep merge over the
defaults) followed by the validation pass. -/
def moonPhaseSanitize (userParams : PartialMoonPhaseParameters) (loadDate now : String) :
    MoonPhaseParameters × List Warning :=
  validateMoonPhaseParams (mergeMoonPhase userParams loadDate now) now

/-- starChart up to its network call: the normalizer (deep merge over the
defaults) followed by the validation pass. -/
def starChartSanitize (userParams : PartialStarChartParameters) (loadDate now : String) :
    StarChartParameters × List Warning :=
  validateStarChartParams (mergeStarChart userParams loadDate now) now

/-- A caller input requesting the constellation view while supplying a
NaN rightAscension: starChart({view:{type:'constellation',
parameters:{position:{equatorial:{rightAscension:NaN}}}}}). -/
def nanRightAscensionInput : PartialStarChartParameters :=
  { view := some
      { type := some "constellation"
        parameters := some
          { position := some
              { equatorial := some { rightAscension := some JSNum.nan } } } } }

/-- A caller input requesting the constellation view with no code:
starChart({view:{type:'constellation'}}). -/
def constellationNoCodeInput : PartialStarChartParameters :=
  { view := some { type := some "constellation" } }

/-- A caller input requesting the constellation view with the lowercase
code tau: starChart({view:{type:'constellation',
parameters:{constellation:'tau'}}}). -/
def constellationTauInput : PartialStarChartParameters :=
  { view := some
      { type := some "constellation"
        parameters := some { constellation := some "tau" } } }

/-- The moonPhase input of the merge-correctness scenario:
moonPhase({style:{moonStyle:'sketch'}}). -/
def sketchStyleInput : PartialMoonPhaseParameters :=
  { style := some { moonStyle := some "sketch" } }

/-- A DOM child node rendered by the widget: the paragraph placeholder
produced by getPlaceholder, or an Image pointing at a URL. -/
inductive Node where
  | placeholder (text : String)
  | image (src : String)
  deriving DecidableEq, Repr

/-- The APIResponse shape of the source: { data: { imageUrl } }. -/
structure APIResponse where
  imageUrl : String
  deriving DecidableEq, Repr

/-- The terminal outcome of one request (source request method): HTTP 200
with a parsed body, HTTP 200 with an unparsable body, HTTP 422 with a
parsed or unparsable error body, any other status, the 15-second abort,
or a non-abort fetch rejection. -/
inductive Outcome where
  | success (result : APIResponse)
  | parseFailure
  | clientError
  | clientErrorParseFailure
  | serverError (status : Nat)
  | timeout
  | networkFailure
  deriving DecidableEq, Repr

/-- The Idle-to-Loading transition: the source appends the Loading
placeholder to the target element (el.append), keeping prior children. -/
def loadingTransition (content : List Node) : List Node :=
  content ++ [Node.placeholder "Loading..."]

/-- The Loading-to-terminal transition of the request method: the target
element's children are replaced wholesale (el.replaceChildren) by the
image or by the outcome-specific placeholder, and the completion callback
is invoked with the parsed response in the success branch only.  Returns
the new element content and the argument of the callback invocation
(none when the callback is not invoked). -/
def requestTerminal (o : Outcome) (_content : List Node) : List Node × Option APIResponse :=
  match o with
  | .success r => ([Node.image r.imageUrl], some r)
  | .parseFailure => ([Node.placeholder "Error parsing API response"], none)
  | .clientError => ([Node.placeholder "Invalid parameters sent to API"], none)
  | .clientErrorParseFailure =>
    ([Node.placeholder "Invalid parameters sent to API (unable to parse error details)"], none)
  | .serverError status =>
    ([Node.placeholder ("API request failed with status: " ++ toString status)], none)
  | .timeout => ([Node.placeholder "API request timed out"], none)
  | .networkFailure => ([Node.placeholder "Network error occurred"], none)

/-- One widget invocation after sanitization, abstracted over whether
document.querySelector finds the target element and over the request's
terminal outcome: a missing element logs an error and returns before any
network activity (no request, no callback); otherwise the Loading
placeholder is appended and the request's terminal transition replaces
the content.  Returns the final element content with the callback
argument, or none when the element was not found. -/
def widgetInvoke (elFound : Bool) (o : Outcome) (content : List Node) :
    Option (List Node × Option APIResponse) :=
  if elFound then some (requestTerminal o (loadingTransition content))
  else none

/-- ConfigOptions of the source constructor; the runtime object may omit
basicToken (the tests construct the client from an empty object). -/
structure ConfigOptions where
  basicToken : Option String
  deriving DecidableEq, Repr

/-- The constructor's credential check (source lines 482-487): it throws
when basicToken is falsy (absent or the empty string) or shorter than ten
characters. -/
def constructorThrows (params : ConfigOptions) : Bool :=
  match params.basicToken with
  | none => true
  | some t => t.isEmpty || t.length < 10

/-- A field value of the JavaScript object-graph model used for the
mutation claim: a string, a number-typed runtime value, undefined, or a
reference to a heap object. -/
inductive HVal where
  | str (s : String)
  | numv (n : JSNum)
  | jsUndefined
  | addr (a : Nat)
  deriving DecidableEq, Repr

/-- An object's own enumerable properties, in insertion order. -/
abbrev HFields := List (String × HVal)

/-- A JavaScript object heap: an association of addresses to objects and
a fresh-address counter. -/
structure Heap where
  objs : List (Nat × HFields)
  next : Nat
  deriving Repr

/-- Property read on an object's fields; an absent key is undefined. -/
def fieldsGet (fs : HFields) (k : String) : HVal :=
  match fs.find? (fun p => p.1 == k) with
  | some p => p.2
  | none => .jsUndefined

/-- Property write on an object's fields: overwrite in place when the key
exists, append otherwise (JavaScript property insertion order). -/
def fieldsSet (fs : HFields) (k : String) (v : HVal) : HFields :=
  if fs.any (fun p => p.1 == k) then fs.map (fun p => if p.1 == k then (k, v) else p)
  else fs ++ [(k, v)]

/-- The object stored at an address, if any. -/
def Heap.find (h : Heap) (a : Nat) : Option HFields :=
  (h.objs.find? (fun p => p.1 == a)).map Prod.snd

/-- The object stored at an address; a dangling address reads as empty. -/
def Heap.get (h : Heap) (a : Nat) : HFields :=
  (h.find a).getD []

/-- Allocation of a fresh object (a JavaScript object literal). -/
def Heap.alloc (h : Heap) (fs : HFields) : Heap × Nat :=
  (⟨(h.next, fs) :: h.objs, h.next + 1⟩, h.next)

/-- Property assignment through an address. -/
def Heap.set (h : Heap) (a : Nat) (k : String) (v : HVal) : Heap :=
  ⟨h.objs.map (fun p => if p.1 == a then (p.1, fieldsSet p.2 k v) else p), h.next⟩

/-- Spread of a value into an object literal: the fields of an object, in
order, and nothing for a non-object. -/
def Heap.spread (h : Heap) (v : HVal) : HFields :=
  match v with
  | .addr a => h.get a
  | _ => []

/-- Successive insertion of spread fields into an object literal under
construction. -/
def mergeFields (base extra : HFields) : HFields :=
  extra.foldl (fun acc p => fieldsSet acc p.1 p.2) base

/-- JavaScript truthiness of a heap value (a non-number runtime value in
a number-typed slot is taken to be truthy). -/
def HVal.truthy : HVal → Bool
  | .str s => !s.isEmpty
  | .numv (.num q) => !(decide (q = 0))
  | .numv .nan => false
  | .numv .nonNumber => true
  | .jsUndefined => false
  | .addr _ => true

/-- The string view of a heap value fed to a string validator. -/
def HVal.asString : HVal → String
  | .str s => s
  | _ => ""

/-- The number view of a heap value fed to the range validator. -/
def HVal.asNum : HVal → JSNum
  | .numv n => n
  | _ => .nonNumber

/-- The optional-string view of a heap value fed to validateCssSize. -/
def HVal.asOptString : HVal → Option String
  | .str s => some s
  | _ => none

/-- Property assignment through an object-valued expression: writes the
field when the expression is an object reference (the only case reachable
from the merge output) and is a no-op otherwise. -/
def Heap.setThrough (h : Heap) (v : HVal) (k : String) (w : HVal) : Heap :=
  match v with
  | .addr a => h.set a k w
  | _ => h

/-- The moonPhase merge (source lines 309-325) as a heap program: each
object literal allocates a fresh object whose fields come from spreading
the defaults object, spreading the user object, and the explicit
properties, in evaluation order.  `dflt` is the address of the shared
DEFAULT_MOON_PHASE_PARAMS object; `user` the address of the caller's
object. -/
def mergeMoonPhaseHeap (h0 : Heap) (dflt user : Nat) (now : String) : Heap × Nat :=
  let dFields := h0.get dflt
  let uFields := h0.get user
  let uObserver := fieldsGet uFields "observer"
  let uStyle := fieldsGet uFields "style"
  let uView := fieldsGet uFields "view"
  let userDate := fieldsGet (h0.spread uObserver) "date"
  let obsFields := fieldsSet
    (mergeFields (h0.spread (fieldsGet dFields "observer")) (h0.spread uObserver))
    "date" (if userDate.truthy then userDate else .str now)
  let s1 := h0.alloc obsFields
  let styFields := mergeFields (s1.1.spread (fieldsGet dFields "style")) (s1.1.spread uStyle)
  let s2 := s1.1.alloc styFields
  let viewFields := mergeFields (s2.1.spread (fieldsGet dFields "view")) (s2.1.spread uView)
  let s3 := s2.1.alloc viewFields
  let topFields := fieldsSet (fieldsSet (fieldsSet
    (mergeFields dFields uFields) "observer" (.addr s1.2)) "style" (.addr s2.2))
    "view" (.addr s3.2)
  s3.1.alloc topFields

/-- The moonPhase validation pass (source lines 327-353) as a heap
program: a sequence of property assignments through the merged params
object.  The source never assigns to params.style, params.observer or
params.view themselves, so the three object references are resolved once
up front; assigned values are computed by the functional validators on
the stored values. -/
def validateMoonPhaseHeap (h : Heap) (params : Nat) (now : String) : Heap :=
  let d := DEFAULT_MOON_PHASE_PARAMS now
  let wn := "moonPhase"
  let top := h.get params
  let styV := fieldsGet top "style"
  let obsV := fieldsGet top "observer"
  let viewV := fieldsGet top "view"
  let sty := h.spread styV
  let obs := h.spread obsV
  let vw := h.spread viewV
  let h := h.set params "format" (.str (validateStringEnum (fieldsGet top "format").asString
    ["png", "svg"] d.format "format" wn).1)
  let h := h.setThrough styV "moonStyle" (.str (validateStringEnum
    (fieldsGet sty "moonStyle").asString ["default", "sketch", "realistic"]
    d.style.moonStyle "style.moonStyle" wn).1)
  let h := h.setThrough styV "backgroundStyle" (.str (validateStringEnum
    (fieldsGet sty "backgroundStyle").asString ["stars", "solid", "transparent"]
    d.style.backgroundStyle "style.backgroundStyle" wn).1)
  let h := h.setThrough styV "backgroundColor" (.str (validateCssColor
    (fieldsGet sty "backgroundColor").asString d.style.backgroundColor
    "style.backgroundColor" wn).1)
  let h := h.setThrough styV "headingColor" (.str (validateCssColor
    (fieldsGet sty "headingColor").asString d.style.headingColor "style.headingColor" wn).1)
  let h := h.setThrough styV "textColor" (.str (validateCssColor
    (fieldsGet sty "textColor").asString d.style.textColor "style.textColor" wn).1)
  let h := h.setThrough styV "width" (match (validateCssSize
    (fieldsGet sty "width").asOptString "style.width" wn).1 with
    | some s => .str s
    | none => .jsUndefined)
  let h := h.setThrough styV "height" (match (validateCssSize
    (fieldsGet sty "height").asOptString "style.height" wn).1 with
    | some s => .str s
    | none => .jsUndefined)
  let h := h.setThrough obsV "latitude" (.numv (.num (validateNumberRange
    (fieldsGet obs "latitude").asNum (-90) 90 0 "observer.latitude" wn).1))
  let h := h.setThrough obsV "longitude" (.numv (.num (validateNumberRange
    (fieldsGet obs "longitude").asNum (-180) 180 0 "observer.longitude" wn).1))
  let h := h.setThrough obsV "date" (.str (validateIsoDate
    (fieldsGet obs "date").asString now "observer.date" wn).1)
  let h := h.setThrough viewV "type" (.str (validateStringEnum
    (fieldsGet vw "type").asString
    ["portrait-simple", "portrait-detailed", "landscape-simple", "landscape-detailed"]
    d.view.type "view.type" wn).1)
  if (fieldsGet top "element").truthy then h
  else h.set params "element" (.str d.element)

/-- The starChart merge (source lines 374-402) as a heap program, with
fresh objects allocated down to view.parameters.position.equatorial. -/
def mergeStarChartHeap (h0 : Heap) (dflt user : Nat) (now : String) : Heap × Nat :=
  let dFields := h0.get dflt
  let uFields := h0.get user
  let uObserver := fieldsGet uFields "observer"
  let uStyle := fieldsGet uFields "style"
  let uView := fieldsGet uFields "view"
  let dView := h0.spread (fieldsGet dFields "view")
  let uViewF := h0.spread uView
  let dParams := h0.spread (fieldsGet dView "parameters")
  let uParams := h0.spread (fieldsGet uViewF "parameters")
  let dPos := h0.spread (fieldsGet dParams "position")
  let uPos := h0.spread (fieldsGet uParams "position")
  let userDate := fieldsGet (h0.spread uObserver) "date"
  let obsFields := fieldsSet
    (mergeFields (h0.spread (fieldsGet dFields "observer")) (h0.spread uObserver))
    "date" (if userDate.truthy then userDate else .str now)
  let s1 := h0.alloc obsFields
  let styFields := mergeFields (s1.1.spread (fieldsGet dFields "style")) (s1.1.spread uStyle)
  let s2 := s1.1.alloc styFields
  let eqFields := mergeFields (s2.1.spread (fieldsGet dPos "equatorial"))
    (s2.1.spread (fieldsGet uPos "equatorial"))
  let s3 := s2.1.alloc eqFields
  let posFields := fieldsSet (mergeFields dPos uPos) "equatorial" (.addr s3.2)
  let s4 := s3.1.alloc posFields
  let paramsFields := fieldsSet (mergeFields dParams uParams) "position" (.addr s4.2)
  let s5 := s4.1.alloc paramsFields
  let viewFields := fieldsSet (mergeFields dView uViewF) "parameters" (.addr s5.2)
  let s6 := s5.1.alloc viewFields
  let topFields := fieldsSet (fieldsSet (fieldsSet
    (mergeFields dFields uFields) "observer" (.addr s1.2)) "style" (.addr s2.2))
    "view" (.addr s6.2)
  s6.1.alloc topFields

/-- The starChart validation pass (source lines 404-466) as a heap
program.  The object references along params.style, params.observer,
params.view and params.view.parameters.position.equatorial are resolved
once up front: the source's defensive reassignments of
params.view.parameters (the structure-exists safeguard of the area branch
and the exists guard of the constellation branch) are unreachable from
the merge output, which always builds the full fresh structure, and are
therefore not modelled. -/
def validateStarChartHeap (h : Heap) (params : Nat) (now : String) : Heap :=
  let d := DEFAULT_STAR_CHART_PARAMS now
  let wn := "starChart"
  let top := h.get params
  let styV := fieldsGet top "style"
  let obsV := fieldsGet top "observer"
  let viewV := fieldsGet top "view"
  let sty := h.spread styV
  let obs := h.spread obsV
  let vw := h.spread viewV
  let paramsV := fieldsGet vw "parameters"
  let pFields := h.spread paramsV
  let posV := fieldsGet pFields "position"
  let eqV := fieldsGet (h.spread posV) "equatorial"
  let eqFields := h.spread eqV
  let h := h.setThrough styV "type" (.str (validateStringEnum (fieldsGet sty "type").asString
    ["default", "constellation", "red", "nightvision", "sketch", "white"]
    d.style.type "style.type" wn).1)
  let h := h.setThrough styV "width" (match (validateCssSize
    (fieldsGet sty "width").asOptString "style.width" wn).1 with
    | some s => .str s
    | none => .jsUndefined)
  let h := h.setThrough styV "height" (match (validateCssSize
    (fieldsGet sty "height").asOptString "style.height" wn).1 with
    | some s => .str s
    | none => .jsUndefined)
  let h := h.setThrough obsV "latitude" (.numv (.num (validateNumberRange
    (fieldsGet obs "latitude").asNum (-90) 90 0 "observer.latitude" wn).1))
  let h := h.setThrough obsV "longitude" (.numv (.num (validateNumberRange
    (fieldsGet obs "longitude").asNum (-180) 180 0 "observer.longitude" wn).1))
  let h := h.setThrough obsV "date" (.str (validateIsoDate
    (fieldsGet obs "date").asString now "observer.date" wn).1)
  let vtype := (validateStringEnum (fieldsGet vw "type").asString ["area", "constellation"]
    d.view.type "view.type" wn).1
  let h := h.setThrough viewV "type" (.str vtype)
  let h :=
    if vtype = "area" then
      let h := h.setThrough eqV "rightAscension" (.numv (.num (validateNumberRange
        (fieldsGet eqFields "rightAscension").asNum 0 24
        d.view.parameters.position.equatorial.rightAscension.getQ
        "view.parameters.position.equatorial.rightAscension" wn).1))
      let h := h.setThrough eqV "declination" (.numv (.num (validateNumberRange
        (fieldsGet eqFields "declination").asNum (-90) 90
        d.view.parameters.position.equatorial.declination.getQ
        "view.parameters.position.equatorial.declination" wn).1))
      h.setThrough paramsV "zoom" (.numv (.num (validateNumberRange
        (fieldsGet pFields "zoom").asNum 1 10 d.view.parameters.zoom.getQ
        "view.parameters.zoom" wn).1))
    else if vtype = "constellation" then
      let code :=
        match fieldsGet pFields "constellation" with
        | .str s => s
        | _ => "ORI"
      h.setThrough paramsV "constellation"
        (.str (validateConstellationCode code "ORI" "view.parameters.constellation" wn).1)
    else h
  if (fieldsGet top "element").truthy then h
  else h.set params "element" (.str d.element)

/-- One full moonPhase call on the heap: merge then validate in place. -/
def moonPhaseHeapRun (h : Heap) (dflt user : Nat) (now : String) : Heap :=
  let s := mergeMoonPhaseHeap h dflt user now
  validateMoonPhaseHeap s.1 s.2 now

/-- One full starChart call on the heap: merge then validate in place. -/
def starChartHeapRun (h : Heap) (dflt user : Nat) (now : String) : Heap :=
  let s := mergeStarChartHeap h dflt user now
  validateStarChartHeap s.1 s.2 now

/-- One widget call of a call sequence: which widget, the address of the
caller's params object, and the call-time instant. -/
inductive WidgetCall where
  | moon (user : Nat) (now : String)
  | star (user : Nat) (now : String)
  deriving DecidableEq, Repr

/-- Any number of repeated widget calls against the shared default
template objects at addresses dfltMoon and dfltStar. -/
def runCalls (h : Heap) (dfltMoon dfltStar : Nat) : List WidgetCall → Heap
  | [] => h
  | .moon u now :: rest => runCalls (moonPhaseHeapRun h dfltMoon u now) dfltMoon dfltStar rest
  | .star u now :: rest => runCalls (starChartHeapRun h dfltStar u now) dfltMoon dfltStar rest

/-- Heap evolution that leaves every object below an address bound
untouched and never reuses an address below the bound. -/
def PreservesBelow (n : Nat) (h h' : Heap) : Prop :=
  n ≤ h'.next ∧ ∀ a, a < n → h'.find a = h.find a

/-- A concrete module-load heap: the DEFAULT_MOON_PHASE_PARAMS object
graph at addresses 0-3 (observer, style, view, top), the
DEFAULT_STAR_CHART_PARAMS object graph at addresses 4-10 (observer,
style, equatorial, position, parameters, view, top), and an empty user
params object at address 11. -/
def demoDefaultsHeap : Heap :=
  ⟨[(0, [("latitude", .numv (.num 0)), ("longitude", .numv (.num 0)),
        ("date", .str "2024-01-01T00:00:00.000Z")]),
    (1, [("moonStyle", .str "default"), ("backgroundStyle", .str "stars"),
        ("backgroundColor", .str "black"), ("headingColor", .str "white"),
        ("textColor", .str "white")]),
    (2, [("type", .str "portrait-simple")]),
    (3, [("element", .str "#moon-phase"), ("format", .str "png"), ("style", .addr 1),
        ("observer", .addr 0), ("view", .addr 2)]),
    (4, [("latitude", .numv (.num 0)), ("longitude", .numv (.num 0)),
        ("date", .str "2024-01-01T00:00:00.000Z")]),
    (5, [("type", .str "default")]),
    (6, [("rightAscension", .numv (.num 12.83)), ("declination", .numv (.num (-15.23)))]),
    (7, [("equatorial", .addr 6)]),
    (8, [("position", .addr 7), ("zoom", .numv (.num 3))]),
    (9, [("type", .str "area"), ("parameters", .addr 8)]),
    (10, [("element", .str "#star-chart"), ("style", .addr 5), ("observer", .addr 4),
        ("view", .addr 9)]),
    (11, [])],
   12⟩

theorem alloc_fst_next (h : Heap) (fs : HFields) : (h.alloc fs).1.next = h.next + 1 := rfl

theorem alloc_snd (h : Heap) (fs : HFields) : (h.alloc fs).2 = h.next := rfl

theorem set_next (h : Heap) (a : Nat) (k : String) (v : HVal) : (h.set a k v).next = h.next := rfl

theorem setThrough_next (h : Heap) (v : HVal) (k : String) (w : HVal) :
    (h.setThrough v k w).next = h.next := by
  cases v <;> rfl

theorem find_alloc_ne {h : Heap} {b : Nat} (hb : b ≠ h.next) (fs : HFields) :
    (h.alloc fs).1.find b = h.find b := by
  have : (h.next == b) = false := by simpa using (Ne.symm hb)
  simp [Heap.alloc, Heap.find, List.find?, this]

theorem get_alloc_self (h : Heap) (fs : HFields) : (h.alloc fs).1.get (h.alloc fs).2 = fs := by
  simp [Heap.alloc, Heap.get, Heap.find, List.find?]

theorem get_alloc_ne {h : Heap} {b : Nat} (hb : b ≠ h.next) (fs : HFields) :
    (h.alloc fs).1.get b = h.get b := by
  unfold Heap.get
  rw [find_alloc_ne hb]

theorem find?_set_list (t : List (Nat × HFields)) {a b : Nat} (hba : b ≠ a)
    (k : String) (v : HVal) :
    (t.map (fun p => if p.1 == a then (p.1, fieldsSet p.2 k v) else p)).find?
      (fun p => p.1 == b) = t.find? (fun p => p.1 == b) := by
  induction t with
  | nil => rfl
  | cons p t ih =>
    by_cases hpa : p.1 = a
    · have h1 : (p.1 == a) = true := by simp [hpa]
      have h2 : (p.1 == b) = false := by simp [hpa, Ne.symm hba]
      simp only [List.map_cons, List.find?_cons, h1, if_true, h2]
      exact ih
    · have h1 : (p.1 == a) = false := by simp [hpa]
      simp only [List.map_cons, List.find?_cons, h1, Bool.false_eq_true, if_false]
      by_cases hpb : p.1 = b
      · simp only [show (p.1 == b) = true by simp [hpb]]
      · simp only [show (p.1 == b) = false by simp [hpb]]
        exact ih

theorem find_set_ne {h : Heap} {a b : Nat} (hba : b ≠ a) (k : String) (v : HVal) :
    (h.set a k v).find b = h.find b := by
  obtain ⟨objs, nx⟩ := h
  simp only [Heap.set, Heap.find]
  rw [find?_set_list objs hba k v]

theorem fieldsGet_cons_self {p : String × HVal} {t : List (String × HVal)} {k : String}
    (h : p.1 = k) : fieldsGet (p :: t) k = p.2 := by
  simp only [fieldsGet, List.find?_cons, show (p.1 == k) = true by simp [h]]

theorem fieldsGet_cons_ne {p : String × HVal} {t : List (String × HVal)} {k : String}
    (h : ¬p.1 = k) : fieldsGet (p :: t) k = fieldsGet t k := by
  simp only [fieldsGet, List.find?_cons, show (p.1 == k) = false by simp [h]]

theorem fieldsGet_map_self (fs : HFields) (k : String) (v : HVal)
    (hany : fs.any (fun p => p.1 == k) = true) :
    fieldsGet (fs.map (fun p => if p.1 == k then (k, v) else p)) k = v := by
  induction fs with
  | nil => simp at hany
  | cons p t ih =>
    rw [List.map_cons]
    by_cases hpk : p.1 = k
    · rw [if_pos (by simp [hpk])]
      exact fieldsGet_cons_self rfl
    · rw [if_neg (by simp [hpk])]
      have ht : t.any (fun p => p.1 == k) = true := by
        simpa [List.any_cons, show (p.1 == k) = false by simp [hpk]] using hany
      rw [fieldsGet_cons_ne hpk]
      exact ih ht

theorem fieldsGet_append_self (fs : HFields) (k : String) (v : HVal)
    (hany : fs.any (fun p => p.1 == k) = false) :
    fieldsGet (fs ++ [(k, v)]) k = v := by
  induction fs with
  | nil => exact fieldsGet_cons_self rfl
  | cons p t ih =>
    simp only [List.any_cons, Bool.or_eq_false_iff, beq_eq_false_iff_ne, ne_eq] at hany
    rw [List.cons_append, fieldsGet_cons_ne hany.1]
    exact ih (by simpa using hany.2)

theorem fieldsGet_fieldsSet_self (fs : HFields) (k : String) (v : HVal) :
    fieldsGet (fieldsSet fs k v) k = v := by
  unfold fieldsSet
  rcases hany : fs.any (fun p => p.1 == k) with _ | _
  · rw [if_neg (by simp [hany])]
    exact fieldsGet_append_self fs k v hany
  · rw [if_pos (by simp [hany])]
    exact fieldsGet_map_self fs k v hany

theorem fieldsGet_map_ne (fs : HFields) {k k2 : String} (hk : k2 ≠ k) (v : HVal) :
    fieldsGet (fs.map (fun p => if p.1 == k then (k, v) else p)) k2 = fieldsGet fs k2 := by
  induction fs with
  | nil => rfl
  | cons p t ih =>
    rw [List.map_cons]
    by_cases hpk : p.1 = k
    · rw [if_pos (by simp [hpk])]
      rw [fieldsGet_cons_ne (by simpa using Ne.symm hk), fieldsGet_cons_ne (by rw [hpk]; exact Ne.symm hk)]
      exact ih
    · rw [if_neg (by simp [hpk])]
      by_cases hpb : p.1 = k2
      · rw [fieldsGet_cons_self hpb, fieldsGet_cons_self hpb]
      · rw [fieldsGet_cons_ne hpb, fieldsGet_cons_ne hpb]
        exact ih

theorem fieldsGet_append_ne (fs : HFields) {k k2 : String} (hk : k2 ≠ k) (v : HVal) :
    fieldsGet (fs ++ [(k, v)]) k2 = fieldsGet fs k2 := by
  induction fs with
  | nil =>
    show fieldsGet ((k, v) :: []) k2 = fieldsGet [] k2
    rw [fieldsGet_cons_ne (Ne.symm hk)]
  | cons p t ih =>
    by_cases hpb : p.1 = k2
    · rw [List.cons_append, fieldsGet_cons_self hpb, fieldsGet_cons_self hpb]
    · rw [List.cons_append, fieldsGet_cons_ne hpb, fieldsGet_cons_ne hpb]
      exact ih

theorem fieldsGet_fieldsSet_ne (fs : HFields) {k k2 : String} (hk : k2 ≠ k) (v : HVal) :
    fieldsGet (fieldsSet fs k v) k2 = fieldsGet fs k2 := by
  unfold fieldsSet
  rcases hany : fs.any (fun p => p.1 == k) with _ | _
  · rw [if_neg (by simp [hany])]
    exact fieldsGet_append_ne fs hk v
  · rw [if_pos (by simp [hany])]
    exact fieldsGet_map_ne fs hk v

theorem preservesBelow_refl {n : Nat} {h : Heap} (hn : n ≤ h.next) : PreservesBelow n h h :=
  ⟨hn, fun _ _ => rfl⟩

theorem preservesBelow_trans {n : Nat} {h1 h2 h3 : Heap}
    (p1 : PreservesBelow n h1 h2) (p2 : PreservesBelow n h2 h3) : PreservesBelow n h1 h3 :=
  ⟨p2.1, fun a ha => (p2.2 a ha).trans (p1.2 a ha)⟩

theorem preservesBelow_mono {n m : Nat} {h h' : Heap} (hnm : n ≤ m)
    (p : PreservesBelow m h h') : PreservesBelow n h h' :=
  ⟨le_trans hnm p.1, fun a ha => p.2 a (lt_of_lt_of_le ha hnm)⟩

theorem preservesBelow_alloc_step {n : Nat} {h0 h : Heap} (prev : PreservesBelow n h0 h)
    (fs : HFields) : PreservesBelow n h0 (h.alloc fs).1 := by
  have hn := prev.1
  refine ⟨by rw [alloc_fst_next]; omega, fun a ha => ?_⟩
  rw [find_alloc_ne (by omega)]
  exact prev.2 a ha

theorem preservesBelow_set_step {n a : Nat} {h0 h : Heap} (prev : PreservesBelow n h0 h)
    (ha : n ≤ a) (k : String) (v : HVal) : PreservesBelow n h0 (h.set a k v) := by
  refine ⟨by rw [set_next]; exact prev.1, fun b hb => ?_⟩
  rw [find_set_ne (by omega)]
  exact prev.2 b hb

theorem preservesBelow_setThrough_step {n : Nat} {h0 h : Heap} {v : HVal}
    (prev : PreservesBelow n h0 h) (hv : ∀ a, v = .addr a → n ≤ a) (k : String) (w : HVal) :
    PreservesBelow n h0 (h.setThrough v k w) := by
  cases v with
  | addr a => exact preservesBelow_set_step prev (hv a rfl) k w
  | str s => exact prev
  | numv m => exact prev
  | jsUndefined => exact prev

theorem mergeMoonPhaseHeap_preserves (h0 : Heap) (dflt user : Nat) (now : String) :
    PreservesBelow h0.next h0 (mergeMoonPhaseHeap h0 dflt user now).1 := by
  simp only [mergeMoonPhaseHeap]
  exact preservesBelow_alloc_step (preservesBelow_alloc_step (preservesBelow_alloc_step
    (preservesBelow_alloc_step (preservesBelow_refl le_rfl) _) _) _) _

theorem mergeMoonPhaseHeap_addrs (h0 : Heap) (dflt user : Nat) (now : String) :
    (mergeMoonPhaseHeap h0 dflt user now).2 = h0.next + 3 ∧
    (mergeMoonPhaseHeap h0 dflt user now).1.next = h0.next + 4 ∧
    fieldsGet ((mergeMoonPhaseHeap h0 dflt user now).1.get
      (mergeMoonPhaseHeap h0 dflt user now).2) "observer" = .addr h0.next ∧
    fieldsGet ((mergeMoonPhaseHeap h0 dflt user now).1.get
      (mergeMoonPhaseHeap h0 dflt user now).2) "style" = .addr (h0.next + 1) ∧
    fieldsGet ((mergeMoonPhaseHeap h0 dflt user now).1.get
      (mergeMoonPhaseHeap h0 dflt user now).2) "view" = .addr (h0.next + 2) := by
  refine ⟨rfl, rfl, ?_, ?_, ?_⟩ <;>
    simp [mergeMoonPhaseHeap, Heap.alloc, Heap.get, Heap.find, List.find?_cons,
      fieldsGet_fieldsSet_self, fieldsGet_fieldsSet_ne]

theorem validateMoonPhaseHeap_preserves {n : Nat} {h : Heap} {params : Nat} {now : String}
    (hn : n ≤ h.next) (hp : n ≤ params)
    (hsty : ∀ a, fieldsGet (h.get params) "style" = .addr a → n ≤ a)
    (hobs : ∀ a, fieldsGet (h.get params) "observer" = .addr a → n ≤ a)
    (hview : ∀ a, fieldsGet (h.get params) "view" = .addr a → n ≤ a) :
    PreservesBelow n h (validateMoonPhaseHeap h params now) := by
  simp only [validateMoonPhaseHeap]
  repeat' first
    | exact preservesBelow_refl hn
    | refine preservesBelow_set_step ?_ hp _ _
    | refine preservesBelow_setThrough_step ?_ (by assumption) _ _
    | split

theorem moonPhaseHeapRun_preserves (h : Heap) (dflt user : Nat) (now : String) :
    PreservesBelow h.next h (moonPhaseHeapRun h dflt user now) := by
  obtain ⟨htop, hnext, hobs, hsty, hview⟩ := mergeMoonPhaseHeap_addrs h dflt user now
  refine preservesBelow_trans (mergeMoonPhaseHeap_preserves h dflt user now) ?_
  apply validateMoonPhaseHeap_preserves
  · rw [hnext]; omega
  · rw [htop]; omega
  · intro a ha
    rw [hsty] at ha
    cases ha
    omega
  · intro a ha
    rw [hobs] at ha
    cases ha
    omega
  · intro a ha
    rw [hview] at ha
    cases ha
    omega

theorem mergeStarChartHeap_preserves (h0 : Heap) (dflt user : Nat) (now : String) :
    PreservesBelow h0.next h0 (mergeStarChartHeap h0 dflt user now).1 := by
  simp only [mergeStarChartHeap]
  exact preservesBelow_alloc_step (preservesBelow_alloc_step (preservesBelow_alloc_step
    (preservesBelow_alloc_step (preservesBelow_alloc_step (preservesBelow_alloc_step
    (preservesBelow_alloc_step (preservesBelow_refl le_rfl) _) _) _) _) _) _) _

theorem mergeStarChartHeap_addrs (h0 : Heap) (dflt user : Nat) (now : String) :
    (mergeStarChartHeap h0 dflt user now).2 = h0.next + 6 ∧
    (mergeStarChartHeap h0 dflt user now).1.next = h0.next + 7 ∧
    fieldsGet ((mergeStarChartHeap h0 dflt user now).1.get
      (mergeStarChartHeap h0 dflt user now).2) "observer" = .addr h0.next ∧
    fieldsGet ((mergeStarChartHeap h0 dflt user now).1.get
      (mergeStarChartHeap h0 dflt user now).2) "style" = .addr (h0.next + 1) ∧
    fieldsGet ((mergeStarChartHeap h0 dflt user now).1.get
      (mergeStarChartHeap h0 dflt user now).2) "view" = .addr (h0.next + 5) ∧
    fieldsGet ((mergeStarChartHeap h0 dflt user now).1.spread
      (fieldsGet ((mergeStarChartHeap h0 dflt user now).1.get
        (mergeStarChartHeap h0 dflt user now).2) "view")) "parameters" =
      .addr (h0.next + 4) ∧
    fieldsGet ((mergeStarChartHeap h0 dflt user now).1.spread
      (fieldsGet ((mergeStarChartHeap h0 dflt user now).1.spread
        (fieldsGet ((mergeStarChartHeap h0 dflt user now).1.spread
          (fieldsGet ((mergeStarChartHeap h0 dflt user now).1.get
            (mergeStarChartHeap h0 dflt user now).2) "view")) "parameters")) "position"))
      "equatorial" = .addr (h0.next + 2) := by
  refine ⟨rfl, rfl, ?_, ?_, ?_, ?_, ?_⟩ <;>
    simp [mergeStarChartHeap, Heap.alloc, Heap.get, Heap.find, Heap.spread, List.find?_cons,
      fieldsGet_fieldsSet_self, fieldsGet_fieldsSet_ne]

set_option maxHeartbeats 2000000 in
theorem validateStarChartHeap_preserves {n : Nat} {h : Heap} {params : Nat} {now : String}
    (hn : n ≤ h.next) (hp : n ≤ params)
    (hsty : ∀ a, fieldsGet (h.get params) "style" = .addr a → n ≤ a)
    (hobs : ∀ a, fieldsGet (h.get params) "observer" = .addr a → n ≤ a)
    (hview : ∀ a, fieldsGet (h.get params) "view" = .addr a → n ≤ a)
    (hparams : ∀ a, fieldsGet (h.spread (fieldsGet (h.get params) "view")) "parameters" =
      .addr a → n ≤ a)
    (heq : ∀ a, fieldsGet (h.spread (fieldsGet (h.spread (fieldsGet (h.spread
      (fieldsGet (h.get params) "view")) "parameters")) "position")) "equatorial" =
      .addr a → n ≤ a) :
    PreservesBelow n h (validateStarChartHeap h params now) := by
  simp only [validateStarChartHeap]
  repeat' first
    | exact preservesBelow_refl hn
    | refine preservesBelow_set_step ?_ hp _ _
    | refine preservesBelow_setThrough_step ?_ (by assumption) _ _
    | split

theorem starChartHeapRun_preserves (h : Heap) (dflt user : Nat) (now : String) :
    PreservesBelow h.next h (starChartHeapRun h dflt user now) := by
  obtain ⟨htop, hnext, hobs, hsty, hview, hparams, heq⟩ := mergeStarChartHeap_addrs h dflt user now
  refine preservesBelow_trans (mergeStarChartHeap_preserves h dflt user now) ?_
  apply validateStarChartHeap_preserves
  · rw [hnext]; omega
  · rw [htop]; omega
  · intro a ha
    rw [hsty] at ha
    cases ha
    omega
  · intro a ha
    rw [hobs] at ha
    cases ha
    omega
  · intro a ha
    rw [hview] at ha
    cases ha
    omega
  · intro a ha
    rw [hparams] at ha
    cases ha
    omega
  · intro a ha
    rw [heq] at ha
    cases ha
    omega

theorem runCalls_preserves (calls : List WidgetCall) (h : Heap) (dm ds : Nat) :
    PreservesBelow h.next h (runCalls h dm ds calls) := by
  induction calls generalizing h with
  | nil => exact preservesBelow_refl le_rfl
  | cons c rest ih =>
    cases c with
    | moon u now =>
      have h1 := moonPhaseHeapRun_preserves h dm u now
      exact preservesBelow_trans h1
        (preservesBelow_mono h1.1 (ih (moonPhaseHeapRun h dm u now)))
    | star u now =>
      have h1 := starChartHeapRun_preserves h ds u now
      exact preservesBelow_trans h1
        (preservesBelow_mono h1.1 (ih (starChartHeapRun h ds u now)))

theorem charOfNat_toNat {m : Nat} (h : m < 55296) : (Char.ofNat m).toNat = m := by
  unfold Char.ofNat
  rw [dif_pos (Or.inl h)]
  simp [Char.ofNatAux, Char.toNat, UInt32.ofNat', UInt32.toNat, BitVec.toNat_ofNatLt]

theorem charToUpper_of_lower {c : Char} (h1 : 97 ≤ c.toNat) (h2 : c.toNat ≤ 122) :
    (Char.toUpper c).toNat = c.toNat - 32 := by
  unfold Char.toUpper
  rw [if_pos ⟨h1, h2⟩]
  exact charOfNat_toNat (by omega)

theorem charToUpper_of_not_lower {c : Char} (h : ¬(97 ≤ c.toNat ∧ c.toNat ≤ 122)) :
    Char.toUpper c = c := by
  unfold Char.toUpper
  rw [if_neg h]

theorem charToUpper_letter {c : Char} (h : isAsciiLetterChar c = true) :
    isAsciiLetterChar (Char.toUpper c) = true := by
  by_cases hl : 97 ≤ c.toNat ∧ c.toNat ≤ 122
  · have := charToUpper_of_lower hl.1 hl.2
    simp only [isAsciiLetterChar, isLowerChar, isUpperChar, this, Bool.or_eq_true,
      Bool.and_eq_true, decide_eq_true_eq]
    right
    omega
  · rw [charToUpper_of_not_lower hl]
    exact h

theorem charToUpper_idem {c : Char} : Char.toUpper (Char.toUpper c) = Char.toUpper c := by
  by_cases hl : 97 ≤ c.toNat ∧ c.toNat ≤ 122
  · have h1 := charToUpper_of_lower hl.1 hl.2
    apply charToUpper_of_not_lower
    omega
  · rw [charToUpper_of_not_lower hl]
    rw [charToUpper_of_not_lower hl]

theorem jsToUpper_match {s : String} (h : constellationCodeMatch s = true) :
    constellationCodeMatch (jsToUpper s) = true := by
  simp only [constellationCodeMatch, jsToUpper, Bool.and_eq_true, beq_iff_eq] at *
  obtain ⟨hlen, hall⟩ := h
  refine ⟨by simpa using hlen, ?_⟩
  simp only [List.all_eq_true, List.mem_map] at hall ⊢
  rintro x ⟨c, hc, rfl⟩
  exact charToUpper_letter (hall c hc)

theorem jsToUpper_idem (s : String) : jsToUpper (jsToUpper s) = jsToUpper s := by
  simp only [jsToUpper, List.map_map]
  congr 1
  apply List.map_congr_left
  intro c _
  exact charToUpper_idem

theorem validateStringEnum_idem (value : String) (allowedValues : List String)
    (defaultValue pn wn pn2 wn2 : String) (h : allowedValues.contains defaultValue = true) :
    validateStringEnum (validateStringEnum value allowedValues defaultValue pn wn).1
      allowedValues defaultValue pn2 wn2 =
      ((validateStringEnum value allowedValues defaultValue pn wn).1, []) := by
  unfold validateStringEnum
  by_cases hv : allowedValues.contains value = true
  · rw [if_pos hv]
    rw [if_pos hv]
  · rw [if_neg hv]
    rw [if_pos h]

theorem validateCssColor_idem (color defaultValue pn wn pn2 wn2 : String)
    (h : cssColorMatch defaultValue = true) :
    validateCssColor (validateCssColor color defaultValue pn wn).1 defaultValue pn2 wn2 =
      ((validateCssColor color defaultValue pn wn).1, []) := by
  unfold validateCssColor
  by_cases hv : cssColorMatch color = true
  · rw [if_pos hv]
    rw [if_pos hv]
  · rw [if_neg hv]
    rw [if_pos h]

theorem validateCssSize_idem (size : Option String) (pn wn pn2 wn2 : String) :
    validateCssSize (validateCssSize size pn wn).1 pn2 wn2 =
      ((validateCssSize size pn wn).1, []) := by
  cases size with
  | none => rfl
  | some s =>
    by_cases hv : cssSizeMatch s = true
    · simp [validateCssSize, hv]
    · simp [validateCssSize, hv]

theorem validateNumberRange_idem (value : JSNum) (lo hi d : ℚ) (pn wn pn2 wn2 : String)
    (h1 : lo ≤ d) (h2 : d ≤ hi) :
    validateNumberRange (.num (validateNumberRange value lo hi d pn wn).1) lo hi d pn2 wn2 =
      ((validateNumberRange value lo hi d pn wn).1, []) := by
  cases value with
  | num q =>
    by_cases hv : lo ≤ q ∧ q ≤ hi
    · simp [validateNumberRange, hv.1, hv.2]
    · simp [validateNumberRange, hv, h1, h2]
  | nan => simp [validateNumberRange, h1, h2]
  | nonNumber => simp [validateNumberRange, h1, h2]

theorem validateIsoDate_idem (dateStr dfl dfl2 pn wn pn2 wn2 : String)
    (h : isoDateOk dfl = true) :
    validateIsoDate (validateIsoDate dateStr dfl pn wn).1 dfl2 pn2 wn2 =
      ((validateIsoDate dateStr dfl pn wn).1, []) := by
  unfold validateIsoDate
  by_cases hv : isoDateOk dateStr = true
  · rw [if_pos hv]
    rw [if_pos hv]
  · rw [if_neg hv]
    rw [if_pos h]

theorem validateConstellationCode_idem (code pn wn pn2 wn2 : String) :
    validateConstellationCode (validateConstellationCode code "ORI" pn wn).1 "ORI" pn2 wn2 =
      ((validateConstellationCode code "ORI" pn wn).1, []) := by
  have hori : constellationCodeMatch "ORI" = true := by decide
  have hori2 : jsToUpper "ORI" = "ORI" := by decide
  by_cases hv : constellationCodeMatch code = true
  · simp [validateConstellationCode, hv, jsToUpper_match hv, jsToUpper_idem]
  · simp [validateConstellationCode, hv, hori, hori2]

theorem moon_width_proj (c : MoonPhaseParameters) (now : String) :
    (validateMoonPhaseParams c now).1.style.width =
      (validateCssSize c.style.width "style.width" "moonPhase").1 := rfl

theorem moon_height_proj (c : MoonPhaseParameters) (now : String) :
    (validateMoonPhaseParams c now).1.style.height =
      (validateCssSize c.style.height "style.height" "moonPhase").1 := rfl

theorem star_width_proj (c : StarChartParameters) (now : String) :
    (validateStarChartParams c now).1.style.width =
      (validateCssSize c.style.width "style.width" "starChart").1 := rfl

theorem star_height_proj (c : StarChartParameters) (now : String) :
    (validateStarChartParams c now).1.style.height =
      (validateCssSize c.style.height "style.height" "starChart").1 := rfl

theorem validateCssSize_fst_cases (w : Option String) (pn wn : String) :
    (validateCssSize w pn wn).1 = w ∨ (validateCssSize w pn wn).1 = none := by
  cases w with
  | none => exact Or.inr rfl
  | some s =>
    by_cases hv : cssSizeMatch s = true
    · exact Or.inl (by simp [validateCssSize, hv])
    · exact Or.inr (by simp [validateCssSize, hv])

/-- C5: for style.width and style.height in both widgets, an absent value
stays absent, a value matching the CSS size pattern is kept unchanged, a
non-matching value is dropped to undefined with one warning, and the
sanitized field is always either the supplied value or undefined — a
default size is never substituted. -/
theorem c5_css_size_never_defaults :
    (∀ pn wn, validateCssSize none pn wn = (none, [])) ∧
    (∀ s pn wn, cssSizeMatch s = true → validateCssSize (some s) pn wn = (some s, [])) ∧
    (∀ s pn wn, cssSizeMatch s = false →
      validateCssSize (some s) pn wn = (none, [⟨wn, pn⟩])) ∧
    (∀ c now,
      ((validateMoonPhaseParams c now).1.style.width = c.style.width ∨
        (validateMoonPhaseParams c now).1.style.width = none) ∧
      (c.style.width = none → (validateMoonPhaseParams c now).1.style.width = none) ∧
      ((validateMoonPhaseParams c now).1.style.height = c.style.height ∨
        (validateMoonPhaseParams c now).1.style.height = none) ∧
      (c.style.height = none → (validateMoonPhaseParams c now).1.style.height = none)) ∧
    (∀ c now,
      ((validateStarChartParams c now).1.style.width = c.style.width ∨
        (validateStarChartParams c now).1.style.width = none) ∧
      (c.style.width = none → (validateStarChartParams c now).1.style.width = none) ∧
      ((validateStarChartParams c now).1.style.height = c.style.height ∨
        (validateStarChartParams c now).1.style.height = none) ∧
      (c.style.height = none → (validateStarChartParams c now).1.style.height = none)) := by
  refine ⟨fun pn wn => rfl, fun s pn wn h => by simp [validateCssSize, h],
    fun s pn wn h => by simp [validateCssSize, h], fun c now => ?_, fun c now => ?_⟩
  · refine ⟨?_, fun h => ?_, ?_, fun h => ?_⟩
    · rw [moon_width_proj]; exact validateCssSize_fst_cases _ _ _
    · rw [moon_width_proj, h]; rfl
    · rw [moon_height_proj]; exact validateCssSize_fst_cases _ _ _
    · rw [moon_height_proj, h]; rfl
  · refine ⟨?_, fun h => ?_, ?_, fun h => ?_⟩
    · rw [star_width_proj]; exact validateCssSize_fst_cases _ _ _
    · rw [star_width_proj, h]; rfl
    · rw [star_height_proj]; exact validateCssSize_fst_cases _ _ _
    · rw [star_height_proj, h]; rfl

/-- C5 witness at a concrete non-matching width: the value is dropped
with one warning and no default is substituted. -/
theorem c5_witness :
    cssSizeMatch "wide" = false ∧
    validateCssSize (some "wide") "style.width" "moonPhase" =
      (none, [⟨"moonPhase", "style.width"⟩]) :=
  ⟨by decide, c5_css_size_never_defaults.2.2.1 "wide" "style.width" "moonPhase" (by decide)⟩

/-- C7 counterexample: with prior content in the target element, the
Idle-to-Loading transition appends the Loading placeholder instead of
fully replacing the content. -/
theorem c7_counterexample :
    loadingTransition [Node.image "old"] =
      [Node.image "old", Node.placeholder "Loading..."] ∧
    loadingTransition [Node.image "old"] ≠ [Node.placeholder "Loading..."] := by
  exact ⟨rfl, by decide⟩

/-- C7 amended: every Loading-to-terminal transition fully replaces the
element's content (the result is a single node independent of the prior
content), while the Idle-to-Loading transition appends the Loading
placeholder to whatever content the element already has. -/
theorem c7_amended_full_replace :
    (∀ (o : Outcome) (c1 c2 : List Node),
      (requestTerminal o c1).1 = (requestTerminal o c2).1) ∧
    (∀ (o : Outcome) (c : List Node), ∃ nd, (requestTerminal o c).1 = [nd]) ∧
    (∀ c : List Node, loadingTransition c = c ++ [Node.placeholder "Loading..."]) := by
  refine ⟨fun o c1 c2 => ?_, fun o c => ?_, fun c => rfl⟩
  · cases o <;> rfl
  · cases o <;> exact ⟨_, rfl⟩

/-- C8: construction throws exactly when basicToken is absent or shorter
than ten characters; in particular a nine-character token throws and a
ten-character token succeeds. -/
theorem c8_constructor_throws_iff :
    constructorThrows ⟨none⟩ = true ∧
    (∀ t : String, constructorThrows ⟨some t⟩ = true ↔ t.length < 10) ∧
    (∀ t : String, t.length = 9 → constructorThrows ⟨some t⟩ = true) ∧
    (∀ t : String, t.length = 10 → constructorThrows ⟨some t⟩ = false) := by
  have hiff : ∀ t : String, constructorThrows ⟨some t⟩ = true ↔ t.length < 10 := by
    intro t
    simp only [constructorThrows, Bool.or_eq_true, decide_eq_true_eq]
    constructor
    · rintro (he | hl)
      · have : t = "" := (String.isEmpty_iff t).mp he
        subst this
        decide
      · exact hl
    · exact fun h => Or.inr h
  refine ⟨rfl, hiff, fun t h => (hiff t).mpr (by omega), fun t h => ?_⟩
  cases hb : constructorThrows ⟨some t⟩ with
  | false => rfl
  | true =>
    have := (hiff t).mp hb
    omega

/-- C8 witness: a length-9 token throws, a length-10 token does not. -/
theorem c8_witness :
    constructorThrows ⟨some "123456789"⟩ = true ∧
    constructorThrows ⟨some "1234567890"⟩ = false :=
  ⟨c8_constructor_throws_iff.2.2.1 "123456789" (by decide),
   c8_constructor_throws_iff.2.2.2 "1234567890" (by decide)⟩

/-- C9: the completion callback is invoked, with the parsed response,
exactly in the Success outcome; it is never invoked in a failure outcome
nor when the target element is not found (in which case no request runs
at all). -/
theorem c9_callback_on_success_only :
    (∀ (o : Outcome) (c : List Node) (r : APIResponse),
      (requestTerminal o c).2 = some r ↔ o = .success r) ∧
    (∀ (o : Outcome) (c : List Node), widgetInvoke false o c = none) ∧
    (∀ (o : Outcome) (c : List Node) (r : APIResponse),
      (∃ res, widgetInvoke true o c = some res ∧ res.2 = some r) ↔ o = .success r) := by
  refine ⟨fun o c r => ?_, fun o c => rfl, fun o c r => ?_⟩
  · cases o <;> simp [requestTerminal]
  · cases o <;> simp [widgetInvoke, requestTerminal]

/-- C9 witness: in the Success outcome the callback receives the parsed
response; in the timeout outcome it is not invoked. -/
theorem c9_witness :
    (requestTerminal (.success ⟨"http://x/img.png"⟩) []).2 = some ⟨"http://x/img.png"⟩ ∧
    ¬(requestTerminal .timeout []).2 = some ⟨"http://x/img.png"⟩ :=
  ⟨(c9_callback_on_success_only.1 _ [] ⟨"http://x/img.png"⟩).mpr rfl,
   fun h => by
    have := (c9_callback_on_success_only.1 .timeout [] ⟨"http://x/img.png"⟩).mp h
    exact absurd this (by decide)⟩

theorem validateNumberRange_in {lo hi d q : ℚ} (h1 : lo ≤ q) (h2 : q ≤ hi) (pn wn : String) :
    validateNumberRange (.num q) lo hi d pn wn = (q, []) := by
  simp [validateNumberRange, h1, h2]

theorem validateNumberRange_out {lo hi d q : ℚ} (h : ¬(lo ≤ q ∧ q ≤ hi)) (pn wn : String) :
    validateNumberRange (.num q) lo hi d pn wn = (d, [⟨wn, pn⟩]) := by
  simp only [validateNumberRange]
  rw [if_neg h]

theorem moon_latitude_proj (c : MoonPhaseParameters) (now : String) :
    (validateMoonPhaseParams c now).1.observer.latitude =
      .num (validateNumberRange c.observer.latitude (-90) 90 0
        "observer.latitude" "moonPhase").1 := rfl

theorem moon_longitude_proj (c : MoonPhaseParameters) (now : String) :
    (validateMoonPhaseParams c now).1.observer.longitude =
      .num (validateNumberRange c.observer.longitude (-180) 180 0
        "observer.longitude" "moonPhase").1 := rfl

theorem star_latitude_proj (c : StarChartParameters) (now : String) :
    (validateStarChartParams c now).1.observer.latitude =
      .num (validateNumberRange c.observer.latitude (-90) 90 0
        "observer.latitude" "starChart").1 := rfl

theorem star_longitude_proj (c : StarChartParameters) (now : String) :
    (validateStarChartParams c now).1.observer.longitude =
      .num (validateNumberRange c.observer.longitude (-180) 180 0
        "observer.longitude" "starChart").1 := rfl

theorem star_view_type_enum (c : StarChartParameters) (now : String)
    (h : c.view.type ≠ "constellation") :
    (validateStringEnum c.view.type ["area", "constellation"]
      (DEFAULT_STAR_CHART_PARAMS now).view.type "view.type" "starChart").1 = "area" := by
  by_cases ha : c.view.type = "area"
  · simp [validateStringEnum, ha]
  · have h1 : (c.view.type == "area") = false := by simp [ha]
    have h2 : (c.view.type == "constellation") = false := by simp [h]
    have hc : (["area", "constellation"].contains c.view.type) = false := by
      show (List.elem c.view.type ["area", "constellation"]) = false
      simp only [List.elem_cons, h1, h2, List.elem_nil]
    simp only [validateStringEnum]
    rw [if_neg (show ¬(["area", "constellation"].contains c.view.type = true) by
      intro hcond; rw [hcond] at hc; cases hc)]
    rfl

/-- When the supplied view.type is anything other than the literal
"constellation" (so also any invalid value defaulted to "area"), the
area branch runs: position and zoom are range-validated and the
constellation key is left untouched. -/
theorem star_area_params_proj (c : StarChartParameters) (now : String)
    (h : c.view.type ≠ "constellation") :
    (validateStarChartParams c now).1.view.parameters =
      { position := { equatorial :=
          { rightAscension := .num (validateNumberRange
              c.view.parameters.position.equatorial.rightAscension 0 24 12.83
              "view.parameters.position.equatorial.rightAscension" "starChart").1
            declination := .num (validateNumberRange
              c.view.parameters.position.equatorial.declination (-90) 90 (-15.23)
              "view.parameters.position.equatorial.declination" "starChart").1 } }
        zoom := .num (validateNumberRange c.view.parameters.zoom 1 10 3
          "view.parameters.zoom" "starChart").1
        constellation := c.view.parameters.constellation } := by
  have hv := star_view_type_enum c now h
  simp only [validateStarChartParams, hv, if_pos]
  rfl

/-- When the supplied view.type is the literal "constellation", the
constellation branch runs: position and zoom are left untouched and the
constellation code (defaulted to "ORI" when no string is present) is
validated and case-normalized. -/
theorem star_constellation_params_proj (c : StarChartParameters) (now : String)
    (h : c.view.type = "constellation") :
    (validateStarChartParams c now).1.view.parameters =
      { position := c.view.parameters.position
        zoom := c.view.parameters.zoom
        constellation := some (validateConstellationCode
          ((c.view.parameters.constellation).getD "ORI") "ORI"
          "view.parameters.constellation" "starChart").1 } := by
  have hv : (validateStringEnum c.view.type ["area", "constellation"]
      (DEFAULT_STAR_CHART_PARAMS now).view.type "view.type" "starChart").1 =
      "constellation" := by
    simp [validateStringEnum, h]
  simp only [validateStarChartParams, hv]
  rw [if_neg (show ¬("constellation" : String) = "area" by decide)]
  rw [if_pos (trivial : True)]
  rcases hEq : c.view.parameters.constellation with _ | s <;> simp [hEq]

/-- C2: every field validated by the range rule keeps any value inside
its declared range (endpoints included) and is replaced by its documented
default with one warning outside it; instantiated for observer.latitude
in [-90, 90] (default 0) and observer.longitude in [-180, 180] (default
0) in both widgets, and — when the sanitized view.type is "area", the
only case in which the source applies these rules — rightAscension in
[0, 24] (default 12.83), declination in [-90, 90] (default -15.23) and
zoom in [1, 10] (default 3) for starChart. -/
theorem c2_range_fields :
    (∀ (lo hi d : ℚ) (pn wn : String) (q : ℚ), lo ≤ q → q ≤ hi →
      validateNumberRange (.num q) lo hi d pn wn = (q, [])) ∧
    (∀ (lo hi d : ℚ) (pn wn : String) (q : ℚ), ¬(lo ≤ q ∧ q ≤ hi) →
      validateNumberRange (.num q) lo hi d pn wn = (d, [⟨wn, pn⟩])) ∧
    (∀ (c : MoonPhaseParameters) (now : String) (q : ℚ), c.observer.latitude = .num q →
      (-90 ≤ q → q ≤ 90 → (validateMoonPhaseParams c now).1.observer.latitude = .num q) ∧
      (¬(-90 ≤ q ∧ q ≤ 90) → (validateMoonPhaseParams c now).1.observer.latitude = .num 0)) ∧
    (∀ (c : MoonPhaseParameters) (now : String) (q : ℚ), c.observer.longitude = .num q →
      (-180 ≤ q → q ≤ 180 → (validateMoonPhaseParams c now).1.observer.longitude = .num q) ∧
      (¬(-180 ≤ q ∧ q ≤ 180) → (validateMoonPhaseParams c now).1.observer.longitude = .num 0)) ∧
    (∀ (c : StarChartParameters) (now : String) (q : ℚ), c.observer.latitude = .num q →
      (-90 ≤ q → q ≤ 90 → (validateStarChartParams c now).1.observer.latitude = .num q) ∧
      (¬(-90 ≤ q ∧ q ≤ 90) → (validateStarChartParams c now).1.observer.latitude = .num 0)) ∧
    (∀ (c : StarChartParameters) (now : String) (q : ℚ), c.observer.longitude = .num q →
      (-180 ≤ q → q ≤ 180 → (validateStarChartParams c now).1.observer.longitude = .num q) ∧
      (¬(-180 ≤ q ∧ q ≤ 180) → (validateStarChartParams c now).1.observer.longitude = .num 0)) ∧
    (∀ (c : StarChartParameters) (now : String) (q : ℚ), c.view.type = "area" →
      c.view.parameters.position.equatorial.rightAscension = .num q →
      (0 ≤ q → q ≤ 24 →
        (validateStarChartParams c now).1.view.parameters.position.equatorial.rightAscension =
          .num q) ∧
      (¬(0 ≤ q ∧ q ≤ 24) →
        (validateStarChartParams c now).1.view.parameters.position.equatorial.rightAscension =
          .num 12.83)) ∧
    (∀ (c : StarChartParameters) (now : String) (q : ℚ), c.view.type = "area" →
      c.view.parameters.position.equatorial.declination = .num q →
      (-90 ≤ q → q ≤ 90 →
        (validateStarChartParams c now).1.view.parameters.position.equatorial.declination =
          .num q) ∧
      (¬(-90 ≤ q ∧ q ≤ 90) →
        (validateStarChartParams c now).1.view.parameters.position.equatorial.declination =
          .num (-15.23))) ∧
    (∀ (c : StarChartParameters) (now : String) (q : ℚ), c.view.type = "area" →
      c.view.parameters.zoom = .num q →
      (1 ≤ q → q ≤ 10 →
        (validateStarChartParams c now).1.view.parameters.zoom = .num q) ∧
      (¬(1 ≤ q ∧ q ≤ 10) →
        (validateStarChartParams c now).1.view.parameters.zoom = .num 3)) := by
  refine ⟨fun lo hi d pn wn q h1 h2 => validateNumberRange_in h1 h2 pn wn,
    fun lo hi d pn wn q h => validateNumberRange_out h pn wn,
    fun c now q hq => ?_, fun c now q hq => ?_, fun c now q hq => ?_, fun c now q hq => ?_,
    fun c now q ha hq => ?_, fun c now q ha hq => ?_, fun c now q ha hq => ?_⟩
  · exact ⟨fun h1 h2 => by rw [moon_latitude_proj, hq, validateNumberRange_in h1 h2],
      fun h => by rw [moon_latitude_proj, hq, validateNumberRange_out h]⟩
  · exact ⟨fun h1 h2 => by rw [moon_longitude_proj, hq, validateNumberRange_in h1 h2],
      fun h => by rw [moon_longitude_proj, hq, validateNumberRange_out h]⟩
  · exact ⟨fun h1 h2 => by rw [star_latitude_proj, hq, validateNumberRange_in h1 h2],
      fun h => by rw [star_latitude_proj, hq, validateNumberRange_out h]⟩
  · exact ⟨fun h1 h2 => by rw [star_longitude_proj, hq, validateNumberRange_in h1 h2],
      fun h => by rw [star_longitude_proj, hq, validateNumberRange_out h]⟩
  · have hne : c.view.type ≠ "constellation" := by simp [ha]
    constructor
    · intro h1 h2
      rw [star_area_params_proj c now hne, hq, validateNumberRange_in h1 h2]
    · intro h
      rw [star_area_params_proj c now hne, hq, validateNumberRange_out h]
  · have hne : c.view.type ≠ "constellation" := by simp [ha]
    constructor
    · intro h1 h2
      rw [star_area_params_proj c now hne, hq, validateNumberRange_in h1 h2]
    · intro h
      rw [star_area_params_proj c now hne, hq, validateNumberRange_out h]
  · have hne : c.view.type ≠ "constellation" := by simp [ha]
    constructor
    · intro h1 h2
      rw [star_area_params_proj c now hne, hq, validateNumberRange_in h1 h2]
    · intro h
      rw [star_area_params_proj c now hne, hq, validateNumberRange_out h]

/-- C2 witness: the endpoint latitude 90 is kept unchanged without a
warning, and the out-of-range latitude 200 is replaced by the documented
default 0 with one warning. -/
theorem c2_witness :
    validateNumberRange (.num 90) (-90) 90 0 "observer.latitude" "moonPhase" = (90, []) ∧
    validateNumberRange (.num 200) (-90) 90 0 "observer.latitude" "moonPhase" =
      (0, [⟨"moonPhase", "observer.latitude"⟩]) :=
  ⟨c2_range_fields.1 (-90) 90 0 "observer.latitude" "moonPhase" 90 (by decide) (by decide),
   c2_range_fields.2.1 (-90) 90 0 "observer.latitude" "moonPhase" 200 (by decide)⟩

/-- C10 counterexample: with view.type "constellation" the area-specific
fields are skipped by the conditional branch, so a supplied NaN
rightAscension survives into the sanitized configuration even though the
field has the declared range [0, 24]. -/
theorem c10_counterexample :
    (starChartSanitize nanRightAscensionInput
      "2024-01-01T00:00:00.000Z" "2024-01-01T00:00:00.000Z"
      ).1.view.parameters.position.equatorial.rightAscension = JSNum.nan := by
  rw [show (starChartSanitize nanRightAscensionInput
      "2024-01-01T00:00:00.000Z" "2024-01-01T00:00:00.000Z").1.view.parameters =
      (validateStarChartParams (mergeStarChart nanRightAscensionInput
        "2024-01-01T00:00:00.000Z" "2024-01-01T00:00:00.000Z")
        "2024-01-01T00:00:00.000Z").1.view.parameters from rfl,
    star_constellation_params_proj _ _ rfl]
  rfl

/-- C10 amended: a NaN or a non-number value in a range-validated field
is treated exactly like an out-of-range number — replaced by the
documented default with one warning — so every field the pass
range-validates (observer.latitude and observer.longitude in both
widgets always, and the area view parameters when the sanitized
view.type is "area") holds a real number afterwards; the area-specific
fields are skipped, and may retain a supplied NaN, when view.type is
"constellation". -/
theorem c10_nan_like_out_of_range :
    (∀ (lo hi d : ℚ) (pn wn : String),
      validateNumberRange .nan lo hi d pn wn = (d, [⟨wn, pn⟩]) ∧
      validateNumberRange .nonNumber lo hi d pn wn = (d, [⟨wn, pn⟩])) ∧
    (∀ (c : MoonPhaseParameters) (now : String),
      (∃ q, (validateMoonPhaseParams c now).1.observer.latitude = .num q) ∧
      (∃ q, (validateMoonPhaseParams c now).1.observer.longitude = .num q)) ∧
    (∀ (c : StarChartParameters) (now : String),
      (∃ q, (validateStarChartParams c now).1.observer.latitude = .num q) ∧
      (∃ q, (validateStarChartParams c now).1.observer.longitude = .num q)) ∧
    (∀ (c : StarChartParameters) (now : String), c.view.type = "area" →
      (∃ q, (validateStarChartParams c now).1.view.parameters.position.equatorial.rightAscension =
        .num q) ∧
      (∃ q, (validateStarChartParams c now).1.view.parameters.position.equatorial.declination =
        .num q) ∧
      (∃ q, (validateStarChartParams c now).1.view.parameters.zoom = .num q)) := by
  refine ⟨fun lo hi d pn wn => ⟨rfl, rfl⟩, fun c now => ?_, fun c now => ?_,
    fun c now ha => ?_⟩
  · exact ⟨⟨_, moon_latitude_proj c now⟩, ⟨_, moon_longitude_proj c now⟩⟩
  · exact ⟨⟨_, star_latitude_proj c now⟩, ⟨_, star_longitude_proj c now⟩⟩
  · have hne : c.view.type ≠ "constellation" := by simp [ha]
    rw [star_area_params_proj c now hne]
    exact ⟨⟨_, rfl⟩, ⟨_, rfl⟩, ⟨_, rfl⟩⟩

/-- C10 witness: NaN latitude is replaced by the default 0 with one
warning, and in an area-view configuration the sanitized zoom is a real
number. -/
theorem c10_witness :
    validateNumberRange .nan (-90) 90 0 "observer.latitude" "moonPhase" =
      (0, [⟨"moonPhase", "observer.latitude"⟩]) ∧
    (∃ q, (validateStarChartParams
      (DEFAULT_STAR_CHART_PARAMS "2024-01-01T00:00:00.000Z")
      "2024-01-01T00:00:00.000Z").1.view.parameters.zoom = .num q) :=
  ⟨(c10_nan_like_out_of_range.1 (-90) 90 0 "observer.latitude" "moonPhase").1,
   (c10_nan_like_out_of_range.2.2.2
     (DEFAULT_STAR_CHART_PARAMS "2024-01-01T00:00:00.000Z")
     "2024-01-01T00:00:00.000Z" rfl).2.2⟩

/-- C4: the constellation-code rule runs only when the sanitized
view.type is "constellation" (position and zoom pass through untouched
there), the area rules run only when it is "area" (the constellation key
passes through untouched there); with view.type "constellation" and no
code supplied, one warning is emitted and view.parameters.constellation
becomes "ORI", while a supplied code "tau" is normalized to "TAU" with
no warning at all. -/
theorem c4_view_type_branches :
    (∀ (c : StarChartParameters) (now : String), c.view.type = "constellation" →
      (validateStarChartParams c now).1.view.parameters.position =
        c.view.parameters.position ∧
      (validateStarChartParams c now).1.view.parameters.zoom = c.view.parameters.zoom) ∧
    (∀ (c : StarChartParameters) (now : String), c.view.type ≠ "constellation" →
      (validateStarChartParams c now).1.view.parameters.constellation =
        c.view.parameters.constellation) ∧
    (∀ loadDate now : String, isoDateOk now = true →
      (starChartSanitize constellationNoCodeInput loadDate
        now).1.view.parameters.constellation = some "ORI" ∧
      (starChartSanitize constellationNoCodeInput loadDate now).2 =
        [⟨"starChart", "view.parameters.constellation"⟩]) ∧
    (∀ loadDate now : String, isoDateOk now = true →
      (starChartSanitize constellationTauInput loadDate
        now).1.view.parameters.constellation = some "TAU" ∧
      (starChartSanitize constellationTauInput loadDate now).2 = []) := by
  have hlat : ∀ wn, validateNumberRange (.num 0) (-90) 90 0 "observer.latitude" wn =
      (0, []) := fun wn => by
    exact validateNumberRange_in (by decide) (by decide) _ _
  have hlng : ∀ wn, validateNumberRange (.num 0) (-180) 180 0 "observer.longitude" wn =
      (0, []) := fun wn => by
    exact validateNumberRange_in (by decide) (by decide) _ _
  refine ⟨fun c now h => ?_, fun c now h => ?_, fun loadDate now hnow => ?_,
    fun loadDate now hnow => ?_⟩
  · rw [star_constellation_params_proj c now h]
    exact ⟨rfl, rfl⟩
  · rw [star_area_params_proj c now h]
  · constructor
    · rw [show (starChartSanitize constellationNoCodeInput loadDate
          now).1.view.parameters =
          (validateStarChartParams (mergeStarChart constellationNoCodeInput loadDate now)
            now).1.view.parameters from rfl,
        star_constellation_params_proj _ _ rfl]
      rfl
    · rw [show starChartSanitize constellationNoCodeInput loadDate now =
          validateStarChartParams
            ⟨"#star-chart", ⟨"default", none, none⟩, ⟨.num 0, .num 0, now⟩,
              ⟨"constellation", ⟨⟨⟨.num 12.83, .num (-15.23)⟩⟩, .num 3, none⟩⟩⟩ now from rfl]
      have hc1 : constellationCodeMatch "ORI" = true := by decide
      have he : "#star-chart".isEmpty = false := by decide
      simp [validateStarChartParams, DEFAULT_STAR_CHART_PARAMS, validateStringEnum,
        validateCssSize, validateIsoDate, hnow, validateConstellationCode, hlat, hlng,
        JSNum.getQ, hc1, he]
  · constructor
    · rw [show (starChartSanitize constellationTauInput loadDate
          now).1.view.parameters =
          (validateStarChartParams (mergeStarChart constellationTauInput loadDate now)
            now).1.view.parameters from rfl,
        star_constellation_params_proj _ _ rfl]
      rfl
    · rw [show starChartSanitize constellationTauInput loadDate now =
          validateStarChartParams
            ⟨"#star-chart", ⟨"default", none, none⟩, ⟨.num 0, .num 0, now⟩,
              ⟨"constellation", ⟨⟨⟨.num 12.83, .num (-15.23)⟩⟩, .num 3, some "tau"⟩⟩⟩ now
          from rfl]
      have hc3 : constellationCodeMatch "tau" = true := by decide
      have he : "#star-chart".isEmpty = false := by decide
      simp [validateStarChartParams, DEFAULT_STAR_CHART_PARAMS, validateStringEnum,
        validateCssSize, validateIsoDate, hnow, validateConstellationCode, hlat, hlng,
        JSNum.getQ, hc3, he]

/-- C4 witness at a concrete call time: the no-code scenario warns once
and defaults to ORI, and the tau scenario normalizes silently. -/
theorem c4_witness :
    isoDateOk "2024-01-01T00:00:00.000Z" = true ∧
    (starChartSanitize constellationNoCodeInput "2024-01-01T00:00:00.000Z"
      "2024-01-01T00:00:00.000Z").1.view.parameters.constellation = some "ORI" ∧
    (starChartSanitize constellationTauInput "2024-01-01T00:00:00.000Z"
      "2024-01-01T00:00:00.000Z").2 = [] :=
  ⟨by decide,
   (c4_view_type_branches.2.2.1 "2024-01-01T00:00:00.000Z" "2024-01-01T00:00:00.000Z"
     (by decide)).1,
   (c4_view_type_branches.2.2.2 "2024-01-01T00:00:00.000Z" "2024-01-01T00:00:00.000Z"
     (by decide)).2⟩

/-- C1 counterexample: the observer.date leaf is merged through a
JavaScript truthiness test, so a supplied empty-string date — a leaf
scalar present in the user input — does not override the default: the
normalizer replaces it with the call-time instant. -/
theorem c1_counterexample :
    (mergeMoonPhase { observer := some { date := some "" } }
      "2020-01-01T00:00:00.000Z" "2021-01-01T00:00:00.000Z").observer.date =
      "2021-01-01T00:00:00.000Z" ∧
    ("2021-01-01T00:00:00.000Z" : String) ≠ "" :=
  ⟨rfl, by decide⟩

/-- C1 amended: the normalizer merges field by field — every leaf scalar
present in the user input overrides the widget default and every absent
leaf falls back to it, through all nested records down to the equatorial
coordinates — except observer.date, which is tested for JavaScript
truthiness: a supplied empty string is treated as absent and both it and
a missing date fall back to the call-time instant; in particular
moonPhase({style:{moonStyle:'sketch'}}) keeps style.backgroundColor
"black" through merge and validation. -/
theorem c1_merge_field_by_field :
    (∀ (u : PartialMoonPhaseParameters) (loadDate now : String),
      mergeMoonPhase u loadDate now =
        { element := u.element.getD "#moon-phase"
          format := u.format.getD "png"
          style :=
            { moonStyle := (u.style.bind PartialMoonStyle.moonStyle).getD "default"
              backgroundStyle := (u.style.bind PartialMoonStyle.backgroundStyle).getD "stars"
              backgroundColor := (u.style.bind PartialMoonStyle.backgroundColor).getD "black"
              headingColor := (u.style.bind PartialMoonStyle.headingColor).getD "white"
              textColor := (u.style.bind PartialMoonStyle.textColor).getD "white"
              width := u.style.bind PartialMoonStyle.width
              height := u.style.bind PartialMoonStyle.height }
          observer :=
            { latitude := (u.observer.bind PartialObserver.latitude).getD (.num 0)
              longitude := (u.observer.bind PartialObserver.longitude).getD (.num 0)
              date :=
                match u.observer.bind PartialObserver.date with
                | some s => if s.isEmpty then now else s
                | none => now }
          view := { type := (u.view.bind PartialMoonView.type).getD "portrait-simple" } }) ∧
    (∀ (u : PartialStarChartParameters) (loadDate now : String),
      mergeStarChart u loadDate now =
        { element := u.element.getD "#star-chart"
          style :=
            { type := (u.style.bind PartialStarStyle.type).getD "default"
              width := u.style.bind PartialStarStyle.width
              height := u.style.bind PartialStarStyle.height }
          observer :=
            { latitude := (u.observer.bind PartialObserver.latitude).getD (.num 0)
              longitude := (u.observer.bind PartialObserver.longitude).getD (.num 0)
              date :=
                match u.observer.bind PartialObserver.date with
                | some s => if s.isEmpty then now else s
                | none => now }
          view :=
            { type := (u.view.bind PartialStarView.type).getD "area"
              parameters :=
                { position :=
                    { equatorial :=
                        { rightAscension :=
                            ((((u.view.bind PartialStarView.parameters).bind
                              PartialStarViewParameters.position).bind
                              PartialStarPosition.equatorial).bind
                              PartialEquatorial.rightAscension).getD (.num 12.83)
                          declination :=
                            ((((u.view.bind PartialStarView.parameters).bind
                              PartialStarViewParameters.position).bind
                              PartialStarPosition.equatorial).bind
                              PartialEquatorial.declination).getD (.num (-15.23)) } }
                  zoom := ((u.view.bind PartialStarView.parameters).bind
                    PartialStarViewParameters.zoom).getD (.num 3)
                  constellation := (u.view.bind PartialStarView.parameters).bind
                    PartialStarViewParameters.constellation } } }) ∧
    (∀ loadDate now : String,
      (mergeMoonPhase sketchStyleInput loadDate now).style.moonStyle = "sketch" ∧
      (mergeMoonPhase sketchStyleInput loadDate now).style.backgroundColor = "black" ∧
      (moonPhaseSanitize sketchStyleInput loadDate now).1.style.backgroundColor = "black") := by
  refine ⟨fun u loadDate now => ?_, fun u loadDate now => ?_,
    fun loadDate now => ⟨rfl, rfl, rfl⟩⟩
  · obtain ⟨e, f, st, ob, vw⟩ := u
    rcases st with _ | st <;> rcases ob with _ | ob <;> rcases vw with _ | vw <;>
      simp [mergeMoonPhase, mergeDate, DEFAULT_MOON_PHASE_PARAMS]
  · obtain ⟨e, st, ob, vw⟩ := u
    rcases vw with _ | ⟨vt, vp⟩
    · rcases st with _ | st <;> rcases ob with _ | ob <;>
        simp [mergeStarChart, mergeDate, DEFAULT_STAR_CHART_PARAMS]
    · rcases vp with _ | ⟨pp, pz, pc⟩
      · rcases st with _ | st <;> rcases ob with _ | ob <;>
          simp [mergeStarChart, mergeDate, DEFAULT_STAR_CHART_PARAMS]
      · rcases pp with _ | ⟨peq⟩
        · rcases st with _ | st <;> rcases ob with _ | ob <;>
            simp [mergeStarChart, mergeDate, DEFAULT_STAR_CHART_PARAMS]
        · rcases peq with _ | ⟨pra, pdec⟩ <;> rcases st with _ | st <;>
            rcases ob with _ | ob <;>
            simp [mergeStarChart, mergeDate, DEFAULT_STAR_CHART_PARAMS]

/-- C3: the validation pass is idempotent — re-running the full pass on
its own output (at any later call time whose provider date is used only
if a field is invalid, which cannot happen on a sanitized configuration)
returns the configuration unchanged and emits no warning, for both
widgets; the hypothesis is that the first pass's provider date (the real
new Date().toISOString()) is itself a valid ISO date. -/
theorem c3_validation_idempotent (now now2 : String) (hnow : isoDateOk now = true) :
    (∀ c : MoonPhaseParameters,
      validateMoonPhaseParams (validateMoonPhaseParams c now).1 now2 =
        ((validateMoonPhaseParams c now).1, [])) ∧
    (∀ c : StarChartParameters,
      validateStarChartParams (validateStarChartParams c now).1 now2 =
        ((validateStarChartParams c now).1, [])) := by
  have hfmt : ∀ v pn wn pn2 wn2, validateStringEnum
      (validateStringEnum v ["png", "svg"] "png" pn wn).1 ["png", "svg"] "png" pn2 wn2 =
      ((validateStringEnum v ["png", "svg"] "png" pn wn).1, []) :=
    fun v pn wn pn2 wn2 => validateStringEnum_idem v _ _ pn wn pn2 wn2 (by decide)
  have hms : ∀ v pn wn pn2 wn2, validateStringEnum
      (validateStringEnum v ["default", "sketch", "realistic"] "default" pn wn).1
      ["default", "sketch", "realistic"] "default" pn2 wn2 =
      ((validateStringEnum v ["default", "sketch", "realistic"] "default" pn wn).1, []) :=
    fun v pn wn pn2 wn2 => validateStringEnum_idem v _ _ pn wn pn2 wn2 (by decide)
  have hbs : ∀ v pn wn pn2 wn2, validateStringEnum
      (validateStringEnum v ["stars", "solid", "transparent"] "stars" pn wn).1
      ["stars", "solid", "transparent"] "stars" pn2 wn2 =
      ((validateStringEnum v ["stars", "solid", "transparent"] "stars" pn wn).1, []) :=
    fun v pn wn pn2 wn2 => validateStringEnum_idem v _ _ pn wn pn2 wn2 (by decide)
  have hblack : ∀ v pn wn pn2 wn2, validateCssColor
      (validateCssColor v "black" pn wn).1 "black" pn2 wn2 =
      ((validateCssColor v "black" pn wn).1, []) :=
    fun v pn wn pn2 wn2 => validateCssColor_idem v _ pn wn pn2 wn2 (by decide)
  have hwhite : ∀ v pn wn pn2 wn2, validateCssColor
      (validateCssColor v "white" pn wn).1 "white" pn2 wn2 =
      ((validateCssColor v "white" pn wn).1, []) :=
    fun v pn wn pn2 wn2 => validateCssColor_idem v _ pn wn pn2 wn2 (by decide)
  have hlat : ∀ v pn wn pn2 wn2, validateNumberRange
      (.num (validateNumberRange v (-90) 90 0 pn wn).1) (-90) 90 0 pn2 wn2 =
      ((validateNumberRange v (-90) 90 0 pn wn).1, []) :=
    fun v pn wn pn2 wn2 => validateNumberRange_idem v _ _ _ pn wn pn2 wn2
      (by norm_num) (by norm_num)
  have hlng : ∀ v pn wn pn2 wn2, validateNumberRange
      (.num (validateNumberRange v (-180) 180 0 pn wn).1) (-180) 180 0 pn2 wn2 =
      ((validateNumberRange v (-180) 180 0 pn wn).1, []) :=
    fun v pn wn pn2 wn2 => validateNumberRange_idem v _ _ _ pn wn pn2 wn2
      (by norm_num) (by norm_num)
  have hiso : ∀ v pn wn pn2 wn2, validateIsoDate
      (validateIsoDate v now pn wn).1 now2 pn2 wn2 =
      ((validateIsoDate v now pn wn).1, []) :=
    fun v pn wn pn2 wn2 => validateIsoDate_idem v now now2 pn wn pn2 wn2 hnow
  have hmv : ∀ v pn wn pn2 wn2, validateStringEnum
      (validateStringEnum v
        ["portrait-simple", "portrait-detailed", "landscape-simple", "landscape-detailed"]
        "portrait-simple" pn wn).1
      ["portrait-simple", "portrait-detailed", "landscape-simple", "landscape-detailed"]
      "portrait-simple" pn2 wn2 =
      ((validateStringEnum v
        ["portrait-simple", "portrait-detailed", "landscape-simple", "landscape-detailed"]
        "portrait-simple" pn wn).1, []) :=
    fun v pn wn pn2 wn2 => validateStringEnum_idem v _ _ pn wn pn2 wn2 (by decide)
  have hst : ∀ v pn wn pn2 wn2, validateStringEnum
      (validateStringEnum v ["default", "constellation", "red", "nightvision", "sketch", "white"]
        "default" pn wn).1
      ["default", "constellation", "red", "nightvision", "sketch", "white"] "default" pn2 wn2 =
      ((validateStringEnum v
        ["default", "constellation", "red", "nightvision", "sketch", "white"]
        "default" pn wn).1, []) :=
    fun v pn wn pn2 wn2 => validateStringEnum_idem v _ _ pn wn pn2 wn2 (by decide)
  have hsv : ∀ v pn wn pn2 wn2, validateStringEnum
      (validateStringEnum v ["area", "constellation"] "area" pn wn).1
      ["area", "constellation"] "area" pn2 wn2 =
      ((validateStringEnum v ["area", "constellation"] "area" pn wn).1, []) :=
    fun v pn wn pn2 wn2 => validateStringEnum_idem v _ _ pn wn pn2 wn2 (by decide)
  have hra : ∀ v pn wn pn2 wn2, validateNumberRange
      (.num (validateNumberRange v 0 24 12.83 pn wn).1) 0 24 12.83 pn2 wn2 =
      ((validateNumberRange v 0 24 12.83 pn wn).1, []) :=
    fun v pn wn pn2 wn2 => validateNumberRange_idem v _ _ _ pn wn pn2 wn2
      (by norm_num) (by norm_num)
  have hdec : ∀ v pn wn pn2 wn2, validateNumberRange
      (.num (validateNumberRange v (-90) 90 (-15.23) pn wn).1) (-90) 90 (-15.23) pn2 wn2 =
      ((validateNumberRange v (-90) 90 (-15.23) pn wn).1, []) :=
    fun v pn wn pn2 wn2 => validateNumberRange_idem v _ _ _ pn wn pn2 wn2
      (by norm_num) (by norm_num)
  have hzm : ∀ v pn wn pn2 wn2, validateNumberRange
      (.num (validateNumberRange v 1 10 3 pn wn).1) 1 10 3 pn2 wn2 =
      ((validateNumberRange v 1 10 3 pn wn).1, []) :=
    fun v pn wn pn2 wn2 => validateNumberRange_idem v _ _ _ pn wn pn2 wn2
      (by norm_num) (by norm_num)
  have helm : ∀ s : String,
      (if s.isEmpty then (("#moon-phase" : String), ([⟨"moonPhase", "element"⟩] : List Warning))
        else (s, [])).1.isEmpty = false := by
    intro s
    by_cases hs : s.isEmpty <;>
      simp [hs, show ("#moon-phase" : String).isEmpty = false from by decide]
  have hels : ∀ s : String,
      (if s.isEmpty then (("#star-chart" : String), ([⟨"starChart", "element"⟩] : List Warning))
        else (s, [])).1.isEmpty = false := by
    intro s
    by_cases hs : s.isEmpty <;>
      simp [hs, show ("#star-chart" : String).isEmpty = false from by decide]
  constructor
  · intro c
    simp only [validateMoonPhaseParams, DEFAULT_MOON_PHASE_PARAMS, JSNum.getQ]
    simp [hfmt, hms, hbs, hblack, hwhite, validateCssSize_idem, hlat, hlng, hiso, hmv, helm]
  · intro c
    simp only [validateStarChartParams, DEFAULT_STAR_CHART_PARAMS, JSNum.getQ]
    have hae : validateStringEnum "area" ["area", "constellation"] "area"
        "view.type" "starChart" = ("area", []) := by decide
    have hce : validateStringEnum "constellation" ["area", "constellation"] "area"
        "view.type" "starChart" = ("constellation", []) := by decide
    by_cases hvt : (validateStringEnum c.view.type ["area", "constellation"] "area"
      "view.type" "starChart").1 = "area"
    · simp [hvt, hae, hst, validateCssSize_idem, hlat, hlng, hiso, hsv, hra, hdec, hzm, hels]
    · by_cases hvc : (validateStringEnum c.view.type ["area", "constellation"] "area"
        "view.type" "starChart").1 = "constellation"
      · simp [hvt, hvc, hce, hst, validateCssSize_idem, hlat, hlng, hiso, hsv,
          validateConstellationCode_idem, hels]
      · simp [hvt, hvc, hst, validateCssSize_idem, hlat, hlng, hiso, hsv, hels]

/-- C3 witness at a concrete valid call time and the default moonPhase
configuration: the second validation pass returns the first pass's
output unchanged with no warnings. -/
theorem c3_witness :
    isoDateOk "2024-01-01T00:00:00.000Z" = true ∧
    validateMoonPhaseParams
      (validateMoonPhaseParams (DEFAULT_MOON_PHASE_PARAMS "2024-01-01T00:00:00.000Z")
        "2024-01-01T00:00:00.000Z").1 "2025-06-30T12:00:00.000Z" =
      ((validateMoonPhaseParams (DEFAULT_MOON_PHASE_PARAMS "2024-01-01T00:00:00.000Z")
        "2024-01-01T00:00:00.000Z").1, []) :=
  ⟨by decide,
   (c3_validation_idempotent "2024-01-01T00:00:00.000Z" "2025-06-30T12:00:00.000Z"
     (by decide)).1 (DEFAULT_MOON_PHASE_PARAMS "2024-01-01T00:00:00.000Z")⟩

/-- C6: over any number of moonPhase and starChart calls, each call only
allocates fresh objects and writes through the fresh objects built by
its own merge, so every heap object that existed before the calls — in
particular the shared DEFAULT_MOON_PHASE_PARAMS and
DEFAULT_STAR_CHART_PARAMS template graphs allocated at module load — is
left byte-for-byte unchanged. -/
theorem c6_defaults_never_mutated (calls : List WidgetCall) (h : Heap) (dm ds a : Nat)
    (ha : a < h.next) : (runCalls h dm ds calls).find a = h.find a :=
  (runCalls_preserves calls h dm ds).2 a ha

/-- C6 witness: after one moonPhase call and one starChart call against
the concrete module-load heap, the moonPhase default template object (at
address 3) is unchanged. -/
theorem c6_witness :
    3 < demoDefaultsHeap.next ∧
    (runCalls demoDefaultsHeap 3 10
      [WidgetCall.moon 11 "2024-01-01T00:00:00.000Z",
       WidgetCall.star 11 "2024-01-01T00:00:00.000Z"]).find 3 = demoDefaultsHeap.find 3 :=
  ⟨by decide,
   c6_defaults_never_mutated
     [WidgetCall.moon 11 "2024-01-01T00:00:00.000Z",
      WidgetCall.star 11 "2024-01-01T00:00:00.000Z"]
     demoDefaultsHeap 3 10 3 (by decide)⟩

end AstroWidgets
